import Mathlib

/-!
# pavedroad-io/core logger: configuration resolution, validation, key derivation, sink routing

Shallow embedding of

* `logger/config.go`   (namespace `Logger`): `init`, `GetLoggerConfiguration`,
  `FillConfiguration`, `checkConfig` and its helpers;
* `go/logger/kafka.go` (namespace `GoLogger`): `KafkaProducer.sendMessage`;
* `go/logger/zap.go`   (namespace `GoLogger`): `getZapLevel`, `newZapLogger`.

Conventions.

* A Go `error` result is an `Option`: `none` is `nil`.
* `*errCount++` on a counter passed by pointer is explicit state passing: every checker takes the
  counter and returns the new counter.  The counter is an `Int`; `checkConfig` starts it at zero
  and at most nineteen increments can happen, so 64-bit wrap-around is out of reach.
* External collaborators (viper, encoding/json, os/user, sarama, the clock) are function
  parameters collected in structures.
* The string constants of the enumerated option types (`ZapType`, `CEFormat`, ...) are declared
  in other files of the package; `config.go` only names them, so they are parameters (`Consts`).
-/

/-- A decoded JSON value (`interface{}` as produced by `encoding/json`); numbers keep their
literal text. -/
inductive JValue where
  | null
  | bool (b : Bool)
  | number (literal : String)
  | str (s : String)
  | array (items : List JValue)
  | object (members : List (String × JValue))

/-- A Go `map[string]interface{}`, as an association list with unique keys. -/
abbrev JMap := List (String × JValue)

/-- Go map indexing `m[key]`: the stored value, or the nil interface when the key is absent. -/
def JMap.index (m : JMap) (key : String) : Option JValue :=
  m.lookup key

/-- Go single-value type assertion `x.(string)`: `none` stands for the run-time panic raised
when the interface is nil or holds another dynamic type. -/
def assertString : Option JValue → Option String
  | some (JValue.str s) => some s
  | _ => none

namespace Logger

/-! ## Constants of `logger/config.go` -/

def EnvConfig : String := "env"
def FileConfig : String := "file"
def BothConfig : String := "both"

def LogEnvPrefix : String := "PRLOG"
def KafkaEnvPrefix : String := "PRKAFKA"
def CloudEventsEnvPrefix : String := "PRCE"
def RotationEnvPrefix : String := "PRROT"

def ConfigFileName : String := "pr_log_config"

def errInvalid : String := "Invalid configuration type"
def errLogger : String := "Could not create logger configuration"
def errKafka : String := "Could not create kafka configuration"
def errCloudevents : String := "Could not create cloudevents configuration"
def errRotation : String := "Could not create rotation configuration"

/-- The two package-level sentinel errors `ErrFatal` and `ErrNonFatal`. -/
inductive Sentinel where
  | ErrFatal
  | ErrNonFatal
  deriving DecidableEq, Repr

/-- Text of a sentinel: `errors.New("fatal")`, `errors.New("nonfatal")`. -/
def Sentinel.Error : Sentinel → String
  | .ErrFatal => "fatal"
  | .ErrNonFatal => "nonfatal"

/-- An error value built by `fmt.Errorf` with one `%w` verb: its text and the error it wraps. -/
structure GoError where
  msg : String
  wraps : Sentinel
  deriving DecidableEq, Repr

/-- Go `errors.Is(err, target)` for an error that wraps exactly one sentinel. -/
def GoError.Is (e : GoError) (target : Sentinel) : Bool :=
  decide (e.wraps = target)

/-- Go `fmt.Errorf("%s: %s %w\n", what, detail, w)`. -/
def Errorf (what detail : String) (w : Sentinel) : GoError :=
  { msg := what ++ ": " ++ detail ++ " " ++ w.Error ++ "\n", wraps := w }

/-! ## Enumerated option values

The string constants below are used by `config.go` and declared elsewhere in the package.  Every
`switch` of the validators lists them next to the empty string, so within one enumerated type
they are pairwise distinct and non-empty (the Go compiler rejects duplicate constant cases). -/

/-- Names of the enumerated option values used by `config.go`. -/
structure Consts where
  ZapType : String
  LogrusType : String
  DebugType : String
  InfoType : String
  WarnType : String
  ErrorType : String
  FatalType : String
  PanicType : String
  JSONFormat : String
  TextFormat : String
  CEFormat : String
  Stdout : String
  Stderr : String
  RandomPartition : String
  HashPartition : String
  RoundRobinPartition : String
  LevelKey : String
  TimeSecondKey : String
  TimeNanoSecondKey : String
  FixedKey : String
  ExtractedKey : String
  FunctionKey : String
  CompressionNone : String
  CompressionGZIP : String
  CompressionSnappy : String
  CompressionLZ4 : String
  CompressionZSTD : String
  WaitForNone : String
  WaitForLocal : String
  WaitForAll : String
  CEHMAC : String
  CEUUID : String
  CEIncrID : String
  CEFuncID : String
  deriving DecidableEq, Repr

/-- The case constants of each `switch` are pairwise distinct and differ from `""`. -/
def Consts.WellFormed (c : Consts) : Prop :=
  ("" :: [c.ZapType, c.LogrusType]).Nodup ∧
  ("" :: [c.DebugType, c.InfoType, c.WarnType, c.ErrorType, c.FatalType, c.PanicType]).Nodup ∧
  ("" :: [c.JSONFormat, c.TextFormat, c.CEFormat]).Nodup ∧
  ("" :: [c.Stdout, c.Stderr]).Nodup ∧
  ("" :: [c.RandomPartition, c.HashPartition, c.RoundRobinPartition]).Nodup ∧
  ("" :: [c.LevelKey, c.TimeSecondKey, c.TimeNanoSecondKey, c.FixedKey, c.ExtractedKey,
      c.FunctionKey]).Nodup ∧
  ("" :: [c.CompressionNone, c.CompressionGZIP, c.CompressionSnappy, c.CompressionLZ4,
      c.CompressionZSTD]).Nodup ∧
  ("" :: [c.WaitForNone, c.WaitForLocal, c.WaitForAll]).Nodup ∧
  ("" :: [c.CEHMAC, c.CEUUID, c.CEIncrID, c.CEFuncID]).Nodup

instance (c : Consts) : Decidable c.WellFormed := by
  unfold Consts.WellFormed; infer_instance

/-- A sample assignment of the option names, used to evaluate the code on concrete inputs. -/
def sampleConsts : Consts where
  ZapType := "zap"
  LogrusType := "logrus"
  DebugType := "debug"
  InfoType := "info"
  WarnType := "warn"
  ErrorType := "error"
  FatalType := "fatal"
  PanicType := "panic"
  JSONFormat := "json"
  TextFormat := "text"
  CEFormat := "cloudevents"
  Stdout := "stdout"
  Stderr := "stderr"
  RandomPartition := "random"
  HashPartition := "hash"
  RoundRobinPartition := "roundrobin"
  LevelKey := "level"
  TimeSecondKey := "second"
  TimeNanoSecondKey := "nanosecond"
  FixedKey := "fixed"
  ExtractedKey := "extracted"
  FunctionKey := "function"
  CompressionNone := "none"
  CompressionGZIP := "gzip"
  CompressionSnappy := "snappy"
  CompressionLZ4 := "lz4"
  CompressionZSTD := "zstd"
  WaitForNone := "none"
  WaitForLocal := "local"
  WaitForAll := "all"
  CEHMAC := "hmac"
  CEUUID := "uuid"
  CEIncrID := "incr"
  CEFuncID := "func"

/-! ## Configuration records

Field lists follow the default values of `config.go` and the fields read by the validators. -/

/-- Stand-in for a `*tls.Config` target; only its presence is inspected. -/
structure TLSConfig where
  handle : Nat
  deriving DecidableEq, Repr

structure ProducerConfiguration where
  Brokers : List String
  Topic : String
  Partition : String
  Key : String
  KeyName : String
  Compression : String
  AckWait : String
  ProdFlushFreq : Int
  ProdRetryMax : Int
  ProdRetryFreq : Int
  MetaRetryMax : Int
  MetaRetryFreq : Int
  EnableTLS : Bool
  TLSCfg : Option TLSConfig
  EnableDebug : Bool
  deriving DecidableEq, Repr

structure CloudEventsConfiguration where
  SetID : String
  HMACKey : String
  Source : String
  SpecVersion : String
  CEType : String
  SetSubjectLevel : Bool
  deriving DecidableEq, Repr

structure RotationConfiguration where
  MaxSize : Int
  MaxAge : Int
  MaxBackups : Int
  LocalTime : Bool
  Compress : Bool
  deriving DecidableEq, Repr

structure LoggerConfiguration where
  LogPackage : String
  LogLevel : String
  EnableTimeStamps : Bool
  EnableColorLevels : Bool
  EnableCloudEvents : Bool
  CloudEventsCfg : CloudEventsConfiguration
  EnableKafka : Bool
  KafkaFormat : String
  KafkaProducerCfg : ProducerConfiguration
  EnableConsole : Bool
  ConsoleFormat : String
  ConsoleWriter : String
  EnableFile : Bool
  FileFormat : String
  FileLocation : String
  EnableRotation : Bool
  RotationCfg : RotationConfiguration
  EnableDebug : Bool
  deriving DecidableEq, Repr

/-- Zero value of `ProducerConfiguration`. -/
def ProducerConfiguration.zero : ProducerConfiguration :=
  { Brokers := [], Topic := "", Partition := "", Key := "", KeyName := "", Compression := "",
    AckWait := "", ProdFlushFreq := 0, ProdRetryMax := 0, ProdRetryFreq := 0, MetaRetryMax := 0,
    MetaRetryFreq := 0, EnableTLS := false, TLSCfg := none, EnableDebug := false }

/-- Zero value of `CloudEventsConfiguration`. -/
def CloudEventsConfiguration.zero : CloudEventsConfiguration :=
  { SetID := "", HMACKey := "", Source := "", SpecVersion := "", CEType := "",
    SetSubjectLevel := false }

/-- Zero value of `RotationConfiguration`. -/
def RotationConfiguration.zero : RotationConfiguration :=
  { MaxSize := 0, MaxAge := 0, MaxBackups := 0, LocalTime := false, Compress := false }

/-! ## Built-in defaults -/

/-- The literal of `defaultLoggerConfiguration`; the sub-configurations are left at zero. -/
def defaultLoggerConfiguration (c : Consts) : LoggerConfiguration :=
  { LogPackage := c.ZapType
    LogLevel := c.InfoType
    EnableTimeStamps := true
    EnableColorLevels := true
    EnableCloudEvents := true
    CloudEventsCfg := CloudEventsConfiguration.zero
    EnableKafka := false
    KafkaFormat := c.CEFormat
    KafkaProducerCfg := ProducerConfiguration.zero
    EnableConsole := false
    ConsoleFormat := c.TextFormat
    ConsoleWriter := c.Stdout
    EnableFile := true
    FileFormat := c.JSONFormat
    FileLocation := "pavedroad.log"
    EnableRotation := false
    RotationCfg := RotationConfiguration.zero
    EnableDebug := true }

/-- Initial value of the package variable `defaultProducerConfiguration`. -/
def defaultProducerConfiguration (c : Consts) : ProducerConfiguration :=
  { Brokers := ["localhost:9092"]
    Topic := "logs"
    Partition := c.RandomPartition
    Key := c.FixedKey
    KeyName := "username"
    Compression := c.CompressionSnappy
    AckWait := c.WaitForLocal
    ProdFlushFreq := 500
    ProdRetryMax := 10
    ProdRetryFreq := 100
    MetaRetryMax := 10
    MetaRetryFreq := 2000
    EnableTLS := false
    TLSCfg := none
    EnableDebug := false }

def defaultCloudEventsConfiguration (c : Consts) : CloudEventsConfiguration :=
  { SetID := c.CEHMAC
    HMACKey := "pavedroad"
    Source := "http://github.com/pavedroad-io/go-core/logger"
    SpecVersion := "1.0"
    CEType := "io.pavedroad.cloudevents.log"
    SetSubjectLevel := true }

def defaultRotationConfiguration : RotationConfiguration :=
  { MaxSize := 100
    MaxAge := 0
    MaxBackups := 0
    LocalTime := false
    Compress := false }

/-- The mutable package state: `GetLoggerConfiguration` assigns to
`defaultProducerConfiguration.KeyName`. -/
structure Globals where
  defaultProducerConfiguration : ProducerConfiguration
  deriving DecidableEq, Repr

/-- Package state at program start. -/
def Globals.init (c : Consts) : Globals :=
  { defaultProducerConfiguration := Logger.defaultProducerConfiguration c }

def DefaultLoggerCfg (c : Consts) : LoggerConfiguration := defaultLoggerConfiguration c

def DefaultProducerCfg (g : Globals) : ProducerConfiguration := g.defaultProducerConfiguration

def DefaultCloudEventsCfg (c : Consts) : CloudEventsConfiguration :=
  defaultCloudEventsConfiguration c

def DefaultRotationCfg : RotationConfiguration := defaultRotationConfiguration

def DefaultCompleteCfg (c : Consts) (g : Globals) : LoggerConfiguration :=
  { defaultLoggerConfiguration c with
    CloudEventsCfg := defaultCloudEventsConfiguration c
    KafkaProducerCfg := g.defaultProducerConfiguration
    RotationCfg := defaultRotationConfiguration }

/-! ## Layered resolution (`FillConfiguration`, `GetLoggerConfiguration`) -/

/-- The part of a `viper.Viper` instance that `FillConfiguration` sets up; `fileLayer` holds
the key/value pairs of the configuration file once `ReadInConfig` has loaded it. -/
structure Viper where
  defaults : List (String × JValue)
  envPrefix : Option String
  automaticEnv : Bool
  configName : Option String
  configPaths : List String
  fileLayer : Option JMap

def Viper.New : Viper :=
  { defaults := [], envPrefix := none, automaticEnv := false, configName := none,
    configPaths := [], fileLayer := none }

def Viper.SetDefault (v : Viper) (key : String) (value : JValue) : Viper :=
  { v with defaults := v.defaults ++ [(key, value)] }

def Viper.SetEnvPrefix (v : Viper) (pfx : String) : Viper :=
  { v with envPrefix := some pfx }

def Viper.AutomaticEnv (v : Viper) : Viper :=
  { v with automaticEnv := true }

def Viper.SetConfigName (v : Viper) (name : String) : Viper :=
  { v with configName := some name }

def Viper.AddConfigPath (v : Viper) (path : String) : Viper :=
  { v with configPaths := v.configPaths ++ [path] }

/-- The library calls of `FillConfiguration` for a target type `α`.  `ReadInConfig` returns the
instance with the file layer loaded or the read error; `Unmarshal` decodes the merged layers
(environment over file over defaults) into a fresh `α`. -/
structure Collaborators (α : Type) where
  jsonMarshal : α → Except String String
  jsonUnmarshal : String → Except String JMap
  ReadInConfig : Viper → Except String Viper
  Unmarshal : Viper → Except String α

/-- The function `FillConfiguration`: the filled configuration, or the error text. -/
def FillConfiguration {α : Type} (x : Collaborators α) (defaultCfg : α)
    (auto filename pfx : String) : Except String α :=
  match x.jsonMarshal defaultCfg with
  | .error err => .error err
  | .ok defaultJSON =>
    match x.jsonUnmarshal defaultJSON with
    | .error err => .error err
    | .ok defaultMap =>
      let v := Viper.New
      let v := defaultMap.foldl (fun v kv => v.SetDefault kv.1 kv.2) v
      let v :=
        if auto = EnvConfig ∨ auto = BothConfig then (v.SetEnvPrefix pfx).AutomaticEnv else v
      let afterFile : Except String Viper :=
        if auto = FileConfig ∨ auto = BothConfig then
          let v := v.SetConfigName filename
          let v := v.AddConfigPath "."
          let v := v.AddConfigPath "$HOME"
          let v := v.AddConfigPath "$HOME/.pavedroad.d"
          x.ReadInConfig v
        else .ok v
      match afterFile with
      | .error err => .error err
      | .ok v => x.Unmarshal v

/-- Everything outside the package that `GetLoggerConfiguration` consults. -/
structure World where
  userCurrent : Except String String
  logger : Collaborators LoggerConfiguration
  kafka : Collaborators ProducerConfiguration
  cloudevents : Collaborators CloudEventsConfiguration
  rotation : Collaborators RotationConfiguration

/-- Results of `GetLoggerConfiguration` (`config = none` is the nil pointer, `err = none` the nil
error) together with the package state it leaves behind. -/
structure Resolved where
  config : Option LoggerConfiguration
  err : Option GoError
  globals : Globals
  deriving DecidableEq, Repr

/-- The statement `user, err := user.Current(); if err == nil { ... KeyName = user.Username }`
of `GetLoggerConfiguration`. -/
def setDefaultKeyName (w : World) (g : Globals) : Globals :=
  match w.userCurrent with
  | .ok username =>
    { g with defaultProducerConfiguration :=
        { g.defaultProducerConfiguration with KeyName := username } }
  | .error _ => g

def GetLoggerConfiguration (c : Consts) (w : World) (g : Globals)
    (cfgType cfgFileName : String) : Resolved :=
  let errSetting := Sentinel.ErrNonFatal
  if ¬ (cfgType = EnvConfig ∨ cfgType = FileConfig ∨ cfgType = BothConfig) then
    { config := none, err := some (Errorf errInvalid cfgType Sentinel.ErrFatal), globals := g }
  else
    let g := setDefaultKeyName w g
    match FillConfiguration w.logger (DefaultCompleteCfg c g) cfgType cfgFileName
        LogEnvPrefix with
    | .error err =>
      { config := none, err := some (Errorf errLogger err Sentinel.ErrFatal), globals := g }
    | .ok config =>
      match FillConfiguration w.kafka (DefaultProducerCfg g) EnvConfig "" KafkaEnvPrefix with
      | .error err =>
        let errSetting := if config.EnableKafka = true then Sentinel.ErrFatal else errSetting
        { config := none, err := some (Errorf errKafka err errSetting), globals := g }
      | .ok kafkaConfig =>
        let config := { config with KafkaProducerCfg := kafkaConfig }
        match FillConfiguration w.cloudevents (DefaultCloudEventsCfg c) EnvConfig ""
            CloudEventsEnvPrefix with
        | .error err =>
          let errSetting :=
            if config.EnableCloudEvents = true then Sentinel.ErrFatal else errSetting
          { config := none, err := some (Errorf errCloudevents err errSetting), globals := g }
        | .ok ceConfig =>
          let config := { config with CloudEventsCfg := ceConfig }
          match FillConfiguration w.rotation DefaultRotationCfg EnvConfig ""
              RotationEnvPrefix with
          | .error err =>
            let errSetting :=
              if config.EnableRotation = true then Sentinel.ErrFatal else errSetting
            { config := none, err := some (Errorf errRotation err errSetting), globals := g }
          | .ok rotConfig =>
            let config := { config with RotationCfg := rotConfig }
            { config := some config, err := none, globals := g }

/-! ## Validation (`checkConfig` and helpers) -/

def checkLoggerTypes (c : Consts) (lc : LoggerConfiguration) (errCount : Int) : Int :=
  let errCount :=
    if lc.LogPackage = c.ZapType then errCount
    else if lc.LogPackage = c.LogrusType then errCount
    else if lc.LogPackage = "" then errCount
    else errCount + 1
  let errCount :=
    if lc.LogLevel = c.DebugType then errCount
    else if lc.LogLevel = c.InfoType then errCount
    else if lc.LogLevel = c.WarnType then errCount
    else if lc.LogLevel = c.ErrorType then errCount
    else if lc.LogLevel = c.FatalType then errCount
    else if lc.LogLevel = c.PanicType then errCount
    else if lc.LogLevel = "" then errCount
    else errCount + 1
  let errCount :=
    if lc.ConsoleFormat = c.JSONFormat then errCount
    else if lc.ConsoleFormat = c.TextFormat then errCount
    else if lc.ConsoleFormat = "" then errCount
    else if lc.ConsoleFormat = c.CEFormat then errCount + 1 -- fallthrough into default
    else errCount + 1
  let errCount :=
    if lc.ConsoleWriter = c.Stdout then errCount
    else if lc.ConsoleWriter = c.Stderr then errCount
    else if lc.ConsoleWriter = "" then errCount
    else errCount + 1
  let errCount :=
    if lc.KafkaFormat = c.JSONFormat then errCount
    else if lc.KafkaFormat = c.TextFormat then errCount
    else if lc.KafkaFormat = c.CEFormat then errCount
    else if lc.KafkaFormat = "" then errCount
    else errCount + 1
  let errCount :=
    if lc.FileFormat = c.JSONFormat then errCount
    else if lc.FileFormat = c.TextFormat then errCount
    else if lc.FileFormat = "" then errCount
    else if lc.FileFormat = c.CEFormat then errCount + 1 -- fallthrough into default
    else errCount + 1
  errCount

def checkCETypes (c : Consts) (cc : CloudEventsConfiguration) (errCount : Int) : Int :=
  if cc.SetID = c.CEHMAC then errCount
  else if cc.SetID = c.CEUUID then errCount
  else if cc.SetID = c.CEIncrID then errCount
  else if cc.SetID = c.CEFuncID then errCount
  else if cc.SetID = "" then errCount
  else errCount + 1

def checkProducerTypes (c : Consts) (pc : ProducerConfiguration) (errCount : Int) : Int :=
  let errCount :=
    if pc.Partition = c.RandomPartition then errCount
    else if pc.Partition = c.HashPartition then errCount
    else if pc.Partition = c.RoundRobinPartition then errCount
    else if pc.Partition = "" then errCount
    else errCount + 1
  let errCount :=
    if pc.Key = c.LevelKey then errCount
    else if pc.Key = c.TimeSecondKey then errCount
    else if pc.Key = c.TimeNanoSecondKey then errCount
    else if pc.Key = c.FixedKey then errCount
    else if pc.Key = c.ExtractedKey then errCount
    else if pc.Key = c.FunctionKey then errCount
    else if pc.Key = "" then errCount
    else errCount + 1
  let errCount :=
    if pc.Compression = c.CompressionNone then errCount
    else if pc.Compression = c.CompressionGZIP then errCount
    else if pc.Compression = c.CompressionSnappy then errCount
    else if pc.Compression = c.CompressionLZ4 then errCount
    else if pc.Compression = c.CompressionZSTD then errCount
    else if pc.Compression = "" then errCount
    else errCount + 1
  let errCount :=
    if pc.AckWait = c.WaitForNone then errCount
    else if pc.AckWait = c.WaitForLocal then errCount
    else if pc.AckWait = c.WaitForAll then errCount
    else if pc.AckWait = "" then errCount
    else errCount + 1
  errCount

def checkLoggerConfig (c : Consts) (lc : LoggerConfiguration) (errCount : Int) : Int :=
  let errCount := checkLoggerTypes c lc errCount
  if (lc.ConsoleFormat = c.CEFormat ∨ lc.FileFormat = c.CEFormat ∨ lc.KafkaFormat = c.CEFormat)
      ∧ lc.EnableCloudEvents = false then
    errCount + 1
  else errCount

def checkProducerConfig (c : Consts) (pc : ProducerConfiguration) (errCount : Int) : Int :=
  let errCount := checkProducerTypes c pc errCount
  let errCount := if pc.EnableTLS = true ∧ pc.TLSCfg = none then errCount + 1 else errCount
  let errCount := if pc.ProdFlushFreq < 0 then errCount + 1 else errCount
  let errCount := if pc.ProdRetryMax < 0 then errCount + 1 else errCount
  let errCount := if pc.ProdRetryFreq < 0 then errCount + 1 else errCount
  let errCount := if pc.MetaRetryMax < 0 then errCount + 1 else errCount
  let errCount := if pc.MetaRetryFreq < 0 then errCount + 1 else errCount
  errCount

def checkRotationConfig (rc : RotationConfiguration) (errCount : Int) : Int :=
  let errCount := if rc.MaxSize < 0 then errCount + 1 else errCount
  let errCount := if rc.MaxAge < 0 then errCount + 1 else errCount
  let errCount := if rc.MaxBackups < 0 then errCount + 1 else errCount
  errCount

/-- The value of `errCount` when `checkConfig` reaches its final test. -/
def checkConfigCount (c : Consts) (config : LoggerConfiguration) : Int :=
  let errCount : Int := 0
  let errCount := checkLoggerConfig c config errCount
  let errCount :=
    if config.EnableKafka = true then
      let errCount := checkProducerConfig c config.KafkaProducerCfg errCount
      if config.EnableCloudEvents = true then checkCETypes c config.CloudEventsCfg errCount
      else errCount
    else errCount
  let errCount :=
    if config.EnableRotation = true then checkRotationConfig config.RotationCfg errCount
    else errCount
  errCount

/-- The function `checkConfig`: `none` is the `nil` error. -/
def checkConfig (c : Consts) (config : LoggerConfiguration) : Option String :=
  if checkConfigCount c config > 0 then some "Invalid configuration" else none

/-! ## Vocabulary for the statements about `GetLoggerConfiguration` -/

/-- The three sub-configurations resolved after the logger configuration. -/
inductive SubConfig where
  | producer
  | cloudevents
  | rotation
  deriving DecidableEq, Repr

/-- The error text `GetLoggerConfiguration` uses for a sub-configuration. -/
def SubConfig.errText : SubConfig → String
  | .producer => errKafka
  | .cloudevents => errCloudevents
  | .rotation => errRotation

/-- The enable flag of a sub-configuration in a logger configuration. -/
def SubConfig.enabled (config : LoggerConfiguration) : SubConfig → Bool
  | .producer => config.EnableKafka
  | .cloudevents => config.EnableCloudEvents
  | .rotation => config.EnableRotation

/-- The `FillConfiguration` call for sub-configuration `s` is reached (the calls for the
sub-configurations before it succeed) and fails with error text `e`; `g` is the package state at
that point. -/
def SubConfig.FailsWith (s : SubConfig) (c : Consts) (w : World) (g : Globals) (e : String) :
    Prop :=
  match s with
  | .producer =>
    FillConfiguration w.kafka (DefaultProducerCfg g) EnvConfig "" KafkaEnvPrefix = .error e
  | .cloudevents =>
    (∃ k, FillConfiguration w.kafka (DefaultProducerCfg g) EnvConfig "" KafkaEnvPrefix = .ok k) ∧
    FillConfiguration w.cloudevents (DefaultCloudEventsCfg c) EnvConfig "" CloudEventsEnvPrefix
      = .error e
  | .rotation =>
    (∃ k, FillConfiguration w.kafka (DefaultProducerCfg g) EnvConfig "" KafkaEnvPrefix = .ok k) ∧
    (∃ x, FillConfiguration w.cloudevents (DefaultCloudEventsCfg c) EnvConfig ""
      CloudEventsEnvPrefix = .ok x) ∧
    FillConfiguration w.rotation DefaultRotationCfg EnvConfig "" RotationEnvPrefix = .error e

/-- The resolution mode is one of the three supported ones. -/
def ValidMode (cfgType : String) : Prop :=
  cfgType = EnvConfig ∨ cfgType = FileConfig ∨ cfgType = BothConfig

instance (cfgType : String) : Decidable (ValidMode cfgType) := by
  unfold ValidMode; infer_instance

/-! ## Vocabulary for the statements about validation -/

def Consts.logPackages (c : Consts) : List String := [c.ZapType, c.LogrusType]

def Consts.logLevels (c : Consts) : List String :=
  [c.DebugType, c.InfoType, c.WarnType, c.ErrorType, c.FatalType, c.PanicType]

/-- All three format names. -/
def Consts.formats (c : Consts) : List String := [c.JSONFormat, c.TextFormat, c.CEFormat]

/-- The format names without the cloudevents format. -/
def Consts.plainFormats (c : Consts) : List String := [c.JSONFormat, c.TextFormat]

def Consts.writers (c : Consts) : List String := [c.Stdout, c.Stderr]

def Consts.partitions (c : Consts) : List String :=
  [c.RandomPartition, c.HashPartition, c.RoundRobinPartition]

def Consts.keys (c : Consts) : List String :=
  [c.LevelKey, c.TimeSecondKey, c.TimeNanoSecondKey, c.FixedKey, c.ExtractedKey, c.FunctionKey]

def Consts.compressions (c : Consts) : List String :=
  [c.CompressionNone, c.CompressionGZIP, c.CompressionSnappy, c.CompressionLZ4,
    c.CompressionZSTD]

def Consts.ackWaits (c : Consts) : List String := [c.WaitForNone, c.WaitForLocal, c.WaitForAll]

def Consts.setIDs (c : Consts) : List String := [c.CEHMAC, c.CEUUID, c.CEIncrID, c.CEFuncID]

/-- Number of errors (0 or 1) one `switch` with accepted names `set` and an accepted empty
string contributes for the value `v`. -/
def miss (set : List String) (v : String) : Int :=
  if v = "" ∨ v ∈ set then 0 else 1

/-- All numeric fields of the producer and rotation configurations are non-negative. -/
def NumericsNonNeg (config : LoggerConfiguration) : Prop :=
  0 ≤ config.KafkaProducerCfg.ProdFlushFreq ∧ 0 ≤ config.KafkaProducerCfg.ProdRetryMax ∧
  0 ≤ config.KafkaProducerCfg.ProdRetryFreq ∧ 0 ≤ config.KafkaProducerCfg.MetaRetryMax ∧
  0 ≤ config.KafkaProducerCfg.MetaRetryFreq ∧
  0 ≤ config.RotationCfg.MaxSize ∧ 0 ≤ config.RotationCfg.MaxAge ∧
  0 ≤ config.RotationCfg.MaxBackups

instance (config : LoggerConfiguration) : Decidable (NumericsNonNeg config) := by
  unfold NumericsNonNeg; infer_instance

/-- Every enumerated field holds a member of its value set, where each of the three format
fields may hold any of the three format names. -/
def EnumsInSets (c : Consts) (config : LoggerConfiguration) : Prop :=
  config.LogPackage ∈ c.logPackages ∧ config.LogLevel ∈ c.logLevels ∧
  config.ConsoleFormat ∈ c.formats ∧ config.ConsoleWriter ∈ c.writers ∧
  config.KafkaFormat ∈ c.formats ∧ config.FileFormat ∈ c.formats ∧
  config.KafkaProducerCfg.Partition ∈ c.partitions ∧ config.KafkaProducerCfg.Key ∈ c.keys ∧
  config.KafkaProducerCfg.Compression ∈ c.compressions ∧
  config.KafkaProducerCfg.AckWait ∈ c.ackWaits ∧ config.CloudEventsCfg.SetID ∈ c.setIDs

instance (c : Consts) (config : LoggerConfiguration) : Decidable (EnumsInSets c config) := by
  unfold EnumsInSets; infer_instance

/-- Every enumerated field holds a name its `switch` accepts: as `EnumsInSets`, but the console
and file formats are JSON or text only. -/
def EnumsAccepted (c : Consts) (config : LoggerConfiguration) : Prop :=
  config.LogPackage ∈ c.logPackages ∧ config.LogLevel ∈ c.logLevels ∧
  config.ConsoleFormat ∈ c.plainFormats ∧ config.ConsoleWriter ∈ c.writers ∧
  config.KafkaFormat ∈ c.formats ∧ config.FileFormat ∈ c.plainFormats ∧
  config.KafkaProducerCfg.Partition ∈ c.partitions ∧ config.KafkaProducerCfg.Key ∈ c.keys ∧
  config.KafkaProducerCfg.Compression ∈ c.compressions ∧
  config.KafkaProducerCfg.AckWait ∈ c.ackWaits ∧ config.CloudEventsCfg.SetID ∈ c.setIDs

instance (c : Consts) (config : LoggerConfiguration) : Decidable (EnumsAccepted c config) := by
  unfold EnumsAccepted; infer_instance

/-- A non-empty value outside the value set `set`. -/
def Unknown (set : List String) (v : String) : Prop :=
  v ≠ "" ∧ v ∉ set

instance (set : List String) (v : String) : Decidable (Unknown set v) := by
  unfold Unknown; infer_instance

/-- Contribution (0 or 1) of a test `x < 0`. -/
def negative (x : Int) : Int :=
  if x < 0 then 1 else 0

/-- Contribution (0 or 1) of the TLS test of `checkProducerConfig`. -/
def tlsMissing (pc : ProducerConfiguration) : Int :=
  if pc.EnableTLS = true ∧ pc.TLSCfg = none then 1 else 0

/-- Contribution (0 or 1) of the cross-field test of `checkLoggerConfig`. -/
def ceWithoutCloudEvents (c : Consts) (lc : LoggerConfiguration) : Int :=
  if (lc.ConsoleFormat = c.CEFormat ∨ lc.FileFormat = c.CEFormat ∨ lc.KafkaFormat = c.CEFormat)
      ∧ lc.EnableCloudEvents = false then 1 else 0

/-- Some enumerated field that `checkConfig` inspects holds a non-empty value that its `switch`
does not accept: a logger field, or a producer field while Kafka is enabled, or `SetID` while
Kafka and cloud events are both enabled. -/
def HasCheckedUnknown (c : Consts) (config : LoggerConfiguration) : Prop :=
  Unknown c.logPackages config.LogPackage ∨ Unknown c.logLevels config.LogLevel ∨
  Unknown c.plainFormats config.ConsoleFormat ∨ Unknown c.writers config.ConsoleWriter ∨
  Unknown c.formats config.KafkaFormat ∨ Unknown c.plainFormats config.FileFormat ∨
  (config.EnableKafka = true ∧
    (Unknown c.partitions config.KafkaProducerCfg.Partition ∨
      Unknown c.keys config.KafkaProducerCfg.Key ∨
      Unknown c.compressions config.KafkaProducerCfg.Compression ∨
      Unknown c.ackWaits config.KafkaProducerCfg.AckWait)) ∨
  (config.EnableKafka = true ∧ config.EnableCloudEvents = true ∧
    Unknown c.setIDs config.CloudEventsCfg.SetID)

instance (c : Consts) (config : LoggerConfiguration) :
    Decidable (HasCheckedUnknown c config) := by
  unfold HasCheckedUnknown; infer_instance

/-- The built-in defaults. -/
def sampleCfg : LoggerConfiguration :=
  DefaultCompleteCfg sampleConsts (Globals.init sampleConsts)

/-- The built-in defaults with the console format set to the cloudevents format. -/
def sampleCEConsoleCfg : LoggerConfiguration :=
  { sampleCfg with ConsoleFormat := sampleConsts.CEFormat }

/-- The built-in defaults with Kafka and TLS enabled and no TLS material. -/
def sampleTLSCfg : LoggerConfiguration :=
  { sampleCfg with
    EnableKafka := true
    KafkaProducerCfg := { sampleCfg.KafkaProducerCfg with EnableTLS := true, TLSCfg := none } }

/-- The built-in defaults (Kafka disabled) with an unknown partition name. -/
def sampleBadPartitionCfg : LoggerConfiguration :=
  { sampleCfg with
    KafkaProducerCfg := { sampleCfg.KafkaProducerCfg with Partition := "bogus" } }

/-- The built-in defaults with an unknown log level. -/
def sampleBadLevelCfg : LoggerConfiguration :=
  { sampleCfg with LogLevel := "verbose" }

/-- The built-in defaults with cloud events switched off (the Kafka format stays the
cloudevents format). -/
def sampleNoCECfg : LoggerConfiguration :=
  { sampleCfg with EnableCloudEvents := false }

/-- The default producer configuration with the extracted-key strategy and no key name. -/
def sampleExtractedProducer : ProducerConfiguration :=
  { defaultProducerConfiguration sampleConsts with
    Key := sampleConsts.ExtractedKey, KeyName := "" }

/-- The built-in defaults with Kafka enabled and `sampleExtractedProducer`. -/
def sampleExtractedCfg : LoggerConfiguration :=
  { sampleCfg with EnableKafka := true, KafkaProducerCfg := sampleExtractedProducer }

/-- The built-in defaults with rotation enabled and a negative `MaxAge`. -/
def sampleNegAgeCfg : LoggerConfiguration :=
  { sampleCfg with
    EnableRotation := true
    RotationCfg := { defaultRotationConfiguration with MaxAge := -1 } }

/-! ## Sample collaborators -/

/-- Library calls that all succeed; decoding yields `a`. -/
def okCollaborators {α : Type} (a : α) : Collaborators α :=
  { jsonMarshal := fun _ => .ok "\x7b\x7d"
    jsonUnmarshal := fun _ => .ok []
    ReadInConfig := fun v => .ok v
    Unmarshal := fun _ => .ok a }

/-- Library calls whose final decoding step fails with text `e`. -/
def failingCollaborators {α : Type} (e : String) : Collaborators α :=
  { jsonMarshal := fun _ => .ok "\x7b\x7d"
    jsonUnmarshal := fun _ => .ok []
    ReadInConfig := fun v => .ok v
    Unmarshal := fun _ => .error e }

/-- A world in which every layer resolves to the built-in defaults. -/
def sampleWorld : World :=
  { userCurrent := .ok "alice"
    logger := okCollaborators (DefaultCompleteCfg sampleConsts (Globals.init sampleConsts))
    kafka := okCollaborators (defaultProducerConfiguration sampleConsts)
    cloudevents := okCollaborators (defaultCloudEventsConfiguration sampleConsts)
    rotation := okCollaborators defaultRotationConfiguration }

/-- As `sampleWorld`, but the cloudevents environment layer cannot be decoded. -/
def sampleWorldBadCE : World :=
  { sampleWorld with cloudevents := failingCollaborators "cannot decode" }

/-- As `sampleWorld`, but the rotation environment layer cannot be decoded. -/
def sampleWorldBadRotation : World :=
  { sampleWorld with rotation := failingCollaborators "cannot decode" }

/-- A key/value decoder for the sample worlds: the topic a file layer supplies under the key
`kafkaproducercfg.topic`, if a file layer is loaded and holds one. -/
def fileTopic (v : Viper) : Option String :=
  match v.fileLayer with
  | some layer => assertString (layer.index "kafkaproducercfg.topic")
  | none => none

/-- Library calls for the complete configuration in a world whose configuration file sets the
producer topic to "audit": reading the file loads that pair, and decoding lets a file value
override the default topic. -/
def fileLoggerCollaborators : Collaborators LoggerConfiguration :=
  { jsonMarshal := fun _ => .ok "\x7b\x7d"
    jsonUnmarshal := fun _ => .ok []
    ReadInConfig := fun v =>
      .ok { v with fileLayer := some [("kafkaproducercfg.topic", JValue.str "audit")] }
    Unmarshal := fun v =>
      .ok { sampleCfg with
            KafkaProducerCfg :=
              { sampleCfg.KafkaProducerCfg with
                Topic := (fileTopic v).getD sampleCfg.KafkaProducerCfg.Topic } } }

/-- Library calls for the producer sub-configuration in the same world: decoding lets a file
value override the default topic whenever a file layer is loaded. -/
def fileKafkaCollaborators : Collaborators ProducerConfiguration :=
  { jsonMarshal := fun _ => .ok "\x7b\x7d"
    jsonUnmarshal := fun _ => .ok []
    ReadInConfig := fun v =>
      .ok { v with fileLayer := some [("kafkaproducercfg.topic", JValue.str "audit")] }
    Unmarshal := fun v =>
      .ok { defaultProducerConfiguration sampleConsts with
            Topic := (fileTopic v).getD (defaultProducerConfiguration sampleConsts).Topic } }

/-- A world with no environment overrides whose configuration file sets the producer topic to
"audit". -/
def sampleFileWorld : World :=
  { userCurrent := .error "user: lookup failed"
    logger := fileLoggerCollaborators
    kafka := fileKafkaCollaborators
    cloudevents := okCollaborators (defaultCloudEventsConfiguration sampleConsts)
    rotation := okCollaborators defaultRotationConfiguration }

/-! ## Package initialisation (`init`) -/

def LogAutoInitEnvName : String := "PRLOG_AUTOINIT"
def LogAutoCfgEnvName : String := "PRLOG_AUTOCFG"
def ConfigFileEnvName : String := "PRLOG_CFGFILE"

/-- What `init` uses besides `GetLoggerConfiguration`: `os.Getenv` and the constructor
`NewLogger` of the package (`none` is a nil error). -/
structure InitDeps where
  Getenv : String → String
  NewLogger : LoggerConfiguration → Option String

/-- How a run of `init` ends: it returns at once (auto-initialisation not requested), calls
`os.Exit`, panics on the nil pointer dereference `*config`, or installs a logger built from a
configuration. -/
inductive InitOutcome where
  | skipped
  | exit (code : Int)
  | panic
  | initialized (config : LoggerConfiguration)
  deriving DecidableEq, Repr

/-- The resolution mode `init` passes on: `PRLOG_AUTOCFG`, or "env" when it is empty. -/
def initAutoCfg (x : InitDeps) : String :=
  let autoCfg := x.Getenv LogAutoCfgEnvName
  if autoCfg = "" then EnvConfig else autoCfg

/-- The file name `init` passes on: `PRLOG_CFGFILE`, or the default name when it is empty. -/
def initFilename (x : InitDeps) : String :=
  let filename := x.Getenv ConfigFileEnvName
  if filename = "" then ConfigFileName else filename

/-- The function `init`. -/
def init (c : Consts) (w : World) (x : InitDeps) (g : Globals) : InitOutcome :=
  let autoInit := x.Getenv LogAutoInitEnvName
  if autoInit ≠ "true" then InitOutcome.skipped
  else
    let autoCfg := initAutoCfg x
    let filename := initFilename x
    let r := GetLoggerConfiguration c w g autoCfg filename
    let exits : Bool :=
      match r.err with
      | some err => err.Is Sentinel.ErrFatal
      | none => false
    if exits = true then InitOutcome.exit 1
    else
      match r.config with
      | none => InitOutcome.panic
      | some config =>
        match x.NewLogger config with
        | some _ => InitOutcome.exit 1
        | none => InitOutcome.initialized config

/-- An environment that requests auto-initialisation in mode "env" with the default file name,
and a logger constructor that succeeds. -/
def sampleInitDeps : InitDeps :=
  { Getenv := fun name => if name = LogAutoInitEnvName then "true" else ""
    NewLogger := fun _ => none }

end Logger

namespace GoLogger

/-! ## `go/logger/logger.go` -/

def Debug : String := "debug"
def Info : String := "info"
def Warn : String := "warn"
def Error : String := "error"
def Fatal : String := "fatal"

def InstanceZapLogger : Int := 0
def InstanceLogrusLogger : Int := 1

/-- Go `type FormatType int`. -/
abbrev FormatType := Int

def TypeJSONFormat : FormatType := 0
def TypeTextFormat : FormatType := 1
def TypeCEFormat : FormatType := 2

/-! ## `go/logger/kafka.go` -/

/-- Go `type kafkaPartitionType int8`. -/
abbrev kafkaPartitionType := Int

def RandomPartition : kafkaPartitionType := 0
def HashPartition : kafkaPartitionType := 1
def RoundRobinPartition : kafkaPartitionType := 2

/-- Go `type kafkaKeyType int8`. -/
abbrev kafkaKeyType := Int

def LevelKey : kafkaKeyType := 0
def TimeSecondKey : kafkaKeyType := 1
def TimeNanoSecondKey : kafkaKeyType := 2
def FixedKey : kafkaKeyType := 3
def ExtractedKey : kafkaKeyType := 4

/-- Go `type compressionType int8`. -/
abbrev compressionType := Int

def CompressionNone : compressionType := 0
def CompressionGZIP : compressionType := 1
def CompressionSnappy : compressionType := 2
def CompressionLZ4 : compressionType := 3
def CompressionZSTD : compressionType := 4

/-- Go `type ackWaitType int8`. -/
abbrev ackWaitType := Int

def WaitForNone : ackWaitType := 0
def WaitForLocal : ackWaitType := 1
def WaitForAll : ackWaitType := 2

/-- Stand-in for a `*tls.Config` target. -/
structure TLSConfig where
  handle : Nat
  deriving DecidableEq, Repr

/-- The struct `ProducerConfiguration` of `kafka.go`.  The type `ceIDType` of `CloudeventsID`
is declared in another file of the package and is kept as an integer tag. -/
structure ProducerConfiguration where
  Brokers : List String
  Topic : String
  Partition : kafkaPartitionType
  Key : kafkaKeyType
  KeyName : String
  CloudeventsID : Int
  Compression : compressionType
  AckWait : ackWaitType
  FlushFreq : Int
  EnableTLS : Bool
  TLSCfg : Option TLSConfig
  deriving DecidableEq, Repr

/-- Stand-in for a live `sarama.AsyncProducer`. -/
structure AsyncProducer where
  handle : Nat
  deriving DecidableEq, Repr

/-- The struct `KafkaProducer`; `producer = none` is the nil interface. -/
structure KafkaProducer where
  producer : Option AsyncProducer
  config : ProducerConfiguration
  deriving DecidableEq, Repr

/-- A `sarama.ProducerMessage` as built by `sendMessage`. -/
structure ProducerMessage where
  Key : String
  Topic : String
  Value : String
  deriving DecidableEq, Repr

/-- What a call of `sendMessage` does: it panics, or returns an error having published nothing,
or puts one message on the producer input channel and returns nil. -/
inductive SendOutcome where
  | panic
  | error (err : String)
  | published (m : ProducerMessage)
  deriving DecidableEq, Repr

/-- What `sendMessage` uses from outside `kafka.go`: `encoding/json`, the clock, and from the
rest of the package the method `ceAddFields` (it updates the map in place) and the constant
`ceLevelKey`. -/
structure SendDeps where
  jsonUnmarshal : String → Except String JMap
  ceLevelKey : String
  unixNow : Int
  unixNanoNow : Int
  ceAddFields : KafkaProducer → JMap → Except String JMap
  jsonMarshal : JMap → Except String String

/-- Go `strconv.Itoa`. -/
def Itoa (n : Int) : String := toString n

/-- The `switch kp.config.Key` of `sendMessage`: the key, or `none` when a type assertion
panics. -/
def sendMessageKey (d : SendDeps) (kp : KafkaProducer) (msgMap : JMap) : Option String :=
  if kp.config.Key = FixedKey then some kp.config.KeyName
  else if kp.config.Key = ExtractedKey then assertString (msgMap.index kp.config.KeyName)
  else if kp.config.Key = TimeSecondKey then some (Itoa d.unixNow)
  else if kp.config.Key = TimeNanoSecondKey then some (Itoa d.unixNanoNow)
  else assertString (msgMap.index d.ceLevelKey) -- LevelKey falls through into default

/-- The method `KafkaProducer.sendMessage`. -/
def sendMessage (d : SendDeps) (kp : KafkaProducer) (msg : String) : SendOutcome :=
  match d.jsonUnmarshal msg with
  | .error err => .error err
  | .ok msgMap =>
    match sendMessageKey d kp msgMap with
    | none => .panic
    | some key =>
      match d.ceAddFields kp msgMap with
      | .error err => .error err
      | .ok msgMap =>
        match d.jsonMarshal msgMap with
        | .error err => .error err
        | .ok newmsg =>
          match kp.producer with
          | none => .panic -- method call on a nil interface
          | some _ => .published { Key := key, Topic := kp.config.Topic, Value := newmsg }

/-! ## `go/logger/zap.go` -/

/-- The struct `Configuration` of `logger.go`. -/
structure Configuration where
  LogLevel : String
  EnableCloudEvents : Bool
  EnableKafka : Bool
  KafkaFormat : FormatType
  KafkaProducerCfg : ProducerConfiguration
  EnableConsole : Bool
  ConsoleFormat : FormatType
  ConsoleLevelTruncate : Bool
  EnableFile : Bool
  FileFormat : FormatType
  FileLevelTruncate : Bool
  FileLocation : String
  deriving DecidableEq, Repr

/-- Go `zapcore.Level` (an `int8`). -/
abbrev Level := Int

def DebugLevel : Level := -1
def InfoLevel : Level := 0
def WarnLevel : Level := 1
def ErrorLevel : Level := 2
def DPanicLevel : Level := 3
def PanicLevel : Level := 4
def FatalLevel : Level := 5

/-- The encoders `getEncoder` can return. -/
inductive Encoder where
  | json
  | console
  | cloudEventsJSON
  deriving DecidableEq, Repr

/-- The function `getEncoder`; `none` is the nil encoder of the default case. -/
def getEncoder (format : FormatType) : Option Encoder :=
  if format = TypeJSONFormat then some Encoder.json
  else if format = TypeTextFormat then some Encoder.console
  else if format = TypeCEFormat then some Encoder.cloudEventsJSON
  else none

def getZapLevel (level : String) : Level :=
  if level = Info then InfoLevel
  else if level = Warn then WarnLevel
  else if level = Debug then DebugLevel
  else if level = Error then ErrorLevel
  else if level = Fatal then FatalLevel
  else InfoLevel

/-- The three destinations `newZapLogger` can attach. -/
inductive WriteSyncer where
  | kafka (topic : String) (asyncproducer : Option AsyncProducer)
  | stdout
  | lumberjack (Filename : String) (MaxSize : Int) (Compress : Bool) (MaxAge : Int)
  deriving DecidableEq, Repr

/-- A core made by `zapcore.NewCore(enc, ws, level)`. -/
structure Core where
  enc : Option Encoder
  ws : WriteSyncer
  level : Level
  deriving DecidableEq, Repr

/-- The struct `zapLogger`: the cores joined by `zapcore.NewTee` and the fields attached with
`WithFields`. -/
structure zapLogger where
  cores : List Core
  fields : JMap

/-- What `newZapLogger` uses from the rest of the package: the constructor `NewAsyncProducer`
(producer and error result) and the field map `ceFields`. -/
structure ZapDeps where
  NewAsyncProducer : ProducerConfiguration → Option AsyncProducer × Option String
  ceFields : JMap

def zapLogger.WithFields (l : zapLogger) (fields : JMap) : zapLogger :=
  { l with fields := l.fields ++ fields }

/-- The function `newZapLogger`; its error result is nil on every path. -/
def newZapLogger (d : ZapDeps) (config : Configuration) : zapLogger × Option String :=
  let cores : List Core := []
  let cores :=
    if config.EnableKafka = true then
      let level := getZapLevel config.LogLevel
      let asyncproducer := (d.NewAsyncProducer config.KafkaProducerCfg).1
      let writer := WriteSyncer.kafka config.KafkaProducerCfg.Topic asyncproducer
      cores ++ [{ enc := getEncoder config.KafkaFormat, ws := writer, level := level }]
    else cores
  let cores :=
    if config.EnableConsole = true then
      let level := getZapLevel config.LogLevel
      let writer := WriteSyncer.stdout
      cores ++ [{ enc := getEncoder config.ConsoleFormat, ws := writer, level := level }]
    else cores
  let cores :=
    if config.EnableFile = true then
      let level := getZapLevel config.LogLevel
      let writer := WriteSyncer.lumberjack config.FileLocation 100 true 28
      cores ++ [{ enc := getEncoder config.FileFormat, ws := writer, level := level }]
    else cores
  let logger : zapLogger := { cores := cores, fields := [] }
  if config.EnableCloudEvents = true then (logger.WithFields d.ceFields, none)
  else (logger, none)

/-- Go `zapcore.Level.Enabled` as used by a core: an entry at `lvl` passes a core whose minimum
level is at most `lvl`. -/
def Core.Enabled (c : Core) (lvl : Level) : Bool :=
  decide (c.level ≤ lvl)

/-- The cores that take an entry at level `lvl`: the tee offers the entry to every core in the
order the cores were appended, and `Check` adds each core whose level admits it. -/
def zapLogger.checked (l : zapLogger) (lvl : Level) : List Core :=
  l.cores.filter (fun c => c.Enabled lvl)

/-- How a log call ends: every core that took the entry has written it (`done`), or a core made
with the nil encoder panicked when it tried to encode the entry (`panic`).  Either way `written`
lists, in order, the destinations the entry was written to. -/
inductive LogOutcome where
  | done (written : List WriteSyncer)
  | panic (written : List WriteSyncer)
  deriving DecidableEq, Repr

/-- The destinations written to when a log call ended. -/
def LogOutcome.written : LogOutcome → List WriteSyncer
  | .done written => written
  | .panic written => written

/-- The cores that took an entry write it one after the other.  A core first encodes the entry
with its encoder - a call on a nil interface, hence a panic, when `getEncoder` returned nil -
and then hands the bytes to its destination; the cores after a panicking core never write. -/
def writeCores : List Core → List WriteSyncer → LogOutcome
  | [], written => LogOutcome.done written
  | c :: cs, written =>
    match c.enc with
    | none => LogOutcome.panic written
    | some _ => writeCores cs (written ++ [c.ws])

/-- A log call at level `lvl`. -/
def zapLogger.log (l : zapLogger) (lvl : Level) : LogOutcome :=
  writeCores (l.checked lvl) []

/-- The destinations an entry at level `lvl` is written to. -/
def zapLogger.delivered (l : zapLogger) (lvl : Level) : List WriteSyncer :=
  (l.log lvl).written

def WriteSyncer.isConsole : WriteSyncer → Bool
  | .stdout => true
  | _ => false

def WriteSyncer.isFile : WriteSyncer → Bool
  | .lumberjack _ _ _ _ => true
  | _ => false

/-- Whether an entry at level `lvl` reaches the console destination. -/
def zapLogger.reachesConsole (l : zapLogger) (lvl : Level) : Bool :=
  (l.delivered lvl).any WriteSyncer.isConsole

/-- Whether an entry at level `lvl` reaches the file destination. -/
def zapLogger.reachesFile (l : zapLogger) (lvl : Level) : Bool :=
  (l.delivered lvl).any WriteSyncer.isFile

/-! ## Sample inputs -/

/-- A log record as the JSON encoder would emit it. -/
def sampleMsg : String := "\x7b\"level\":\"info\",\"msg\":\"started\"\x7d"

/-- A log record whose `subject` field is a number. -/
def sampleMsgNumericSubject : String := "\x7b\"level\":\"info\",\"subject\":7\x7d"

/-- Collaborators for `sendMessage`: the decoder knows the two sample records, the enrichment
step appends an `id` field, the encoder succeeds. -/
def sampleSendDeps : SendDeps :=
  { jsonUnmarshal := fun s =>
      if s = sampleMsg then .ok [("level", JValue.str "info"), ("msg", JValue.str "started")]
      else if s = sampleMsgNumericSubject then
        .ok [("level", JValue.str "info"), ("subject", JValue.number "7")]
      else .error "invalid character"
    ceLevelKey := "level"
    unixNow := 1600000000
    unixNanoNow := 1600000000000000000
    ceAddFields := fun _ m => .ok (m ++ [("id", JValue.str "1")])
    jsonMarshal := fun _ => .ok "\x7b\"encoded\":true\x7d" }

/-- A producer configuration with the given key strategy and key name. -/
def sampleProducerCfg (key : kafkaKeyType) (keyName : String) : ProducerConfiguration :=
  { Brokers := ["localhost:9092"], Topic := "logs", Partition := RandomPartition, Key := key,
    KeyName := keyName, CloudeventsID := 0, Compression := CompressionSnappy,
    AckWait := WaitForLocal, FlushFreq := 500, EnableTLS := false, TLSCfg := none }

/-- A connected producer with the given key strategy and key name. -/
def sampleProducer (key : kafkaKeyType) (keyName : String) : KafkaProducer :=
  { producer := some { handle := 1 }, config := sampleProducerCfg key keyName }

/-- Collaborators for `newZapLogger`: the producer connects, no cloudevents fields. -/
def sampleZapDeps : ZapDeps :=
  { NewAsyncProducer := fun _ => (some { handle := 1 }, none), ceFields := [] }

/-- A configuration with the console and file sinks enabled at the given level name. -/
def sampleZapCfg (level : String) : Configuration :=
  { LogLevel := level, EnableCloudEvents := false, EnableKafka := false,
    KafkaFormat := TypeCEFormat, KafkaProducerCfg := sampleProducerCfg FixedKey "user1",
    EnableConsole := true, ConsoleFormat := TypeTextFormat, ConsoleLevelTruncate := true,
    EnableFile := true, FileFormat := TypeJSONFormat, FileLevelTruncate := false,
    FileLocation := "pavedroad.log" }

/-! ## Vocabulary for the statements about sinks and keys -/

/-- The three kinds of sink `newZapLogger` knows. -/
inductive SinkKind where
  | kafka
  | console
  | file
  deriving DecidableEq, Repr

/-- The kind of sink a destination belongs to. -/
def WriteSyncer.kind : WriteSyncer → SinkKind
  | .kafka _ _ => SinkKind.kafka
  | .stdout => SinkKind.console
  | .lumberjack _ _ _ _ => SinkKind.file

/-- The sinks whose enable flag is set, in the order `newZapLogger` looks at the flags. -/
def enabledSinks (config : Configuration) : List SinkKind :=
  (if config.EnableKafka = true then [SinkKind.kafka] else []) ++
  (if config.EnableConsole = true then [SinkKind.console] else []) ++
  (if config.EnableFile = true then [SinkKind.file] else [])

/-- The kinds of sink an entry at level `lvl` is written to. -/
def zapLogger.deliveredKinds (l : zapLogger) (lvl : Level) : List SinkKind :=
  (l.delivered lvl).map WriteSyncer.kind

/-- A format value that `getEncoder` has a case for. -/
def DeclaredFormat (format : FormatType) : Prop :=
  format = TypeJSONFormat ∨ format = TypeTextFormat ∨ format = TypeCEFormat

instance (format : FormatType) : Decidable (DeclaredFormat format) := by
  unfold DeclaredFormat; infer_instance

/-- The console and file formats of a configuration are declared ones and its broker sink is
disabled: the logger consists of cores with an encoder that write to standard output and to the
rotating file. -/
def ConsoleAndFileOnly (config : Configuration) : Prop :=
  config.EnableKafka = false ∧ config.EnableConsole = true ∧ config.EnableFile = true ∧
  DeclaredFormat config.ConsoleFormat ∧ DeclaredFormat config.FileFormat

instance (config : Configuration) : Decidable (ConsoleAndFileOnly config) := by
  unfold ConsoleAndFileOnly; infer_instance

/-- The sample configuration at level "info" with a file format that `getEncoder` has no case
for. -/
def sampleZapCfgBadFileFormat : Configuration :=
  { sampleZapCfg Info with FileFormat := 7 }

/-- The five level names of `logger.go`, in increasing order of severity. -/
def levelNames : List String := [Debug, Info, Warn, Error, Fatal]

/-- The key strategies that have a `case` of their own doing something other than the level
key. -/
def ownKeyStrategies : List kafkaKeyType :=
  [FixedKey, ExtractedKey, TimeSecondKey, TimeNanoSecondKey]

/-- As `sampleSendDeps`, but the enrichment step fails. -/
def sampleSendDepsNoID : SendDeps :=
  { sampleSendDeps with ceAddFields := fun _ _ => .error "cloudevents id function failed" }

/-- The sample configuration with the broker sink disabled and the given producer settings. -/
def sampleZapCfgNoKafka (p : ProducerConfiguration) : Configuration :=
  { sampleZapCfg Info with EnableKafka := false, KafkaProducerCfg := p }

end GoLogger

/-! # Theorems -/

namespace Logger

/-! ## Resolution: failure classification -/

/-- C1. In `GetLoggerConfiguration`, when the `FillConfiguration` call of a sub-configuration
(producer, cloudevents, rotation) fails, the call returns a nil configuration and the error
`Errorf text detail severity`, whose severity is `ErrFatal` exactly when the enable flag of that
sub-configuration in the already resolved logger configuration is true, and `ErrNonFatal` (and
not `ErrFatal`) exactly when the flag is false. -/
theorem subconfig_failure_severity (c : Consts) (w : World) (g : Globals)
    (cfgType cfgFileName : String) (config : LoggerConfiguration) (s : SubConfig) (e : String)
    (hmode : ValidMode cfgType)
    (hlog : FillConfiguration w.logger (DefaultCompleteCfg c (setDefaultKeyName w g)) cfgType
      cfgFileName LogEnvPrefix = .ok config)
    (hfail : s.FailsWith c w (setDefaultKeyName w g) e) :
    ∃ err : GoError,
      (GetLoggerConfiguration c w g cfgType cfgFileName).err = some err ∧
      (GetLoggerConfiguration c w g cfgType cfgFileName).config = none ∧
      err.msg = s.errText ++ ": " ++ e ++ " " ++ err.wraps.Error ++ "\n" ∧
      (err.Is Sentinel.ErrFatal = true ↔ s.enabled config = true) ∧
      (err.Is Sentinel.ErrNonFatal = true ↔ s.enabled config = false) ∧
      (s.enabled config = false → err.Is Sentinel.ErrFatal = false) := by
  have hm : ¬ ¬ (cfgType = EnvConfig ∨ cfgType = FileConfig ∨ cfgType = BothConfig) :=
    not_not.mpr hmode
  cases s with
  | producer =>
    simp only [SubConfig.FailsWith] at hfail
    cases hflag : config.EnableKafka <;>
      simp [GetLoggerConfiguration, hm, hlog, hfail, hflag, Errorf, GoError.Is,
        SubConfig.errText, SubConfig.enabled]
  | cloudevents =>
    simp only [SubConfig.FailsWith] at hfail
    obtain ⟨⟨k, hk⟩, hce⟩ := hfail
    cases hflag : config.EnableCloudEvents <;>
      simp [GetLoggerConfiguration, hm, hlog, hk, hce, hflag, Errorf, GoError.Is,
        SubConfig.errText, SubConfig.enabled]
  | rotation =>
    simp only [SubConfig.FailsWith] at hfail
    obtain ⟨⟨k, hk⟩, ⟨x, hx⟩, hrot⟩ := hfail
    cases hflag : config.EnableRotation <;>
      simp [GetLoggerConfiguration, hm, hlog, hk, hx, hrot, hflag, Errorf, GoError.Is,
        SubConfig.errText, SubConfig.enabled]

/-- C1 at a concrete input: the rotation layer fails while `EnableRotation` is false, so the
error is recoverable. -/
theorem subconfig_failure_severity_witness :
    ValidMode "env" ∧
    SubConfig.rotation.FailsWith sampleConsts sampleWorldBadRotation
      (setDefaultKeyName sampleWorldBadRotation (Globals.init sampleConsts)) "cannot decode" ∧
    ∃ err : GoError,
      (GetLoggerConfiguration sampleConsts sampleWorldBadRotation (Globals.init sampleConsts)
        "env" "pr_log_config").err = some err ∧
      (GetLoggerConfiguration sampleConsts sampleWorldBadRotation (Globals.init sampleConsts)
        "env" "pr_log_config").config = none ∧
      err.msg = SubConfig.rotation.errText ++ ": " ++ "cannot decode" ++ " " ++
        err.wraps.Error ++ "\n" ∧
      (err.Is Sentinel.ErrFatal = true ↔
        SubConfig.rotation.enabled
          (DefaultCompleteCfg sampleConsts (Globals.init sampleConsts)) = true) ∧
      (err.Is Sentinel.ErrNonFatal = true ↔
        SubConfig.rotation.enabled
          (DefaultCompleteCfg sampleConsts (Globals.init sampleConsts)) = false) ∧
      (SubConfig.rotation.enabled
          (DefaultCompleteCfg sampleConsts (Globals.init sampleConsts)) = false →
        err.Is Sentinel.ErrFatal = false) :=
  ⟨by decide, ⟨⟨_, rfl⟩, ⟨_, rfl⟩, rfl⟩,
    subconfig_failure_severity sampleConsts sampleWorldBadRotation (Globals.init sampleConsts)
      "env" "pr_log_config" (DefaultCompleteCfg sampleConsts (Globals.init sampleConsts))
      SubConfig.rotation "cannot decode" (by decide) rfl ⟨⟨_, rfl⟩, ⟨_, rfl⟩, rfl⟩⟩

/-- The text of an error built from one of the four stage texts does not start with the text
of the invalid-mode error. -/
theorem stage_text_not_invalid (what detail : String) (w : Sentinel)
    (h : what.data.head? = some 'C') :
    ¬ (errInvalid.data <+: (Errorf what detail w).msg.data) := by
  intro hp
  have hI : errInvalid.data = 'I' :: ("nvalid configuration type" : String).data := by decide
  cases hw : what.data with
  | nil => simp [hw] at h
  | cons a l =>
    simp only [hw, List.head?_cons, Option.some.injEq] at h
    simp only [Errorf, String.data_append, hw, hI, List.cons_append] at hp
    have := (List.cons_prefix_cons.mp hp).1
    rw [h] at this
    exact absurd this (by decide)

/-- C2. For every `cfgType` other than "env", "file" and "both", and every file name,
`GetLoggerConfiguration` returns a nil configuration and the error
`Errorf errInvalid cfgType ErrFatal`; this result does not depend on any collaborator (no layer
is resolved) and the package state is untouched.  For the three valid modes every error
returned carries one of the four stage texts, never the invalid-mode text. -/
theorem invalid_mode_is_fatal (c : Consts) (w : World) (g : Globals)
    (cfgType cfgFileName : String) :
    (¬ ValidMode cfgType →
      GetLoggerConfiguration c w g cfgType cfgFileName =
        { config := none, err := some (Errorf errInvalid cfgType Sentinel.ErrFatal),
          globals := g } ∧
      (Errorf errInvalid cfgType Sentinel.ErrFatal).Is Sentinel.ErrFatal = true) ∧
    (ValidMode cfgType →
      ∀ err : GoError, (GetLoggerConfiguration c w g cfgType cfgFileName).err = some err →
        ¬ (errInvalid.data <+: err.msg.data)) := by
  refine ⟨fun h => ⟨?_, rfl⟩, fun h err herr => ?_⟩
  · unfold ValidMode at h
    simp [GetLoggerConfiguration, h]
  · have hm : ¬ ¬ (cfgType = EnvConfig ∨ cfgType = FileConfig ∨ cfgType = BothConfig) :=
      not_not.mpr h
    have key : ∃ what detail sev, err = Errorf what detail sev ∧
        what.data.head? = some 'C' := by
      simp only [GetLoggerConfiguration, hm, if_false] at herr
      split at herr
      · exact ⟨errLogger, _, _, (Option.some.inj herr).symm, by decide⟩
      · split at herr
        · exact ⟨errKafka, _, _, (Option.some.inj herr).symm, by decide⟩
        · split at herr
          · exact ⟨errCloudevents, _, _, (Option.some.inj herr).symm, by decide⟩
          · split at herr
            · exact ⟨errRotation, _, _, (Option.some.inj herr).symm, by decide⟩
            · simp at herr
    obtain ⟨what, detail, sev, rfl, hC⟩ := key
    exact stage_text_not_invalid what detail sev hC

/-- C2 at concrete inputs: mode "yaml" is rejected as fatal whatever the world, and mode "env"
resolves without error in the sample world. -/
theorem invalid_mode_is_fatal_witness :
    (GetLoggerConfiguration sampleConsts sampleWorld (Globals.init sampleConsts) "yaml"
        "pr_log_config" =
      { config := none, err := some (Errorf errInvalid "yaml" Sentinel.ErrFatal),
        globals := Globals.init sampleConsts }) ∧
    (GetLoggerConfiguration sampleConsts sampleWorld (Globals.init sampleConsts) "env"
        "pr_log_config").err = none :=
  ⟨((invalid_mode_is_fatal sampleConsts sampleWorld (Globals.init sampleConsts) "yaml"
      "pr_log_config").1 (by decide)).1, rfl⟩

/-! ## Validation: the counters as sums -/

theorem miss_nonneg (set : List String) (v : String) : 0 ≤ miss set v := by
  unfold miss; split_ifs <;> decide

theorem miss_eq_zero {set : List String} {v : String} (h : v = "" ∨ v ∈ set) :
    miss set v = 0 := by
  unfold miss; rw [if_pos h]

theorem miss_eq_one {set : List String} {v : String} (h : Unknown set v) : miss set v = 1 := by
  unfold miss
  rw [if_neg]
  rintro (h1 | h1)
  · exact h.1 h1
  · exact h.2 h1

/-- A `switch` with two accepted names. -/
theorem chain2 (v a b : String) (m : Int) :
    (if v = a then m else if v = b then m else if v = "" then m else m + 1)
      = m + miss [a, b] v := by
  simp only [miss, List.mem_cons, List.mem_singleton, List.mem_nil_iff, or_false]
  split_ifs <;> first | rfl | omega | (exfalso; tauto)

/-- A `switch` with three accepted names. -/
theorem chain3 (v a b c : String) (m : Int) :
    (if v = a then m else if v = b then m else if v = c then m
      else if v = "" then m else m + 1) = m + miss [a, b, c] v := by
  simp only [miss, List.mem_cons, List.mem_singleton, List.mem_nil_iff, or_false]
  split_ifs <;> first | rfl | omega | (exfalso; tauto)

/-- A `switch` with four accepted names. -/
theorem chain4 (v a b c d : String) (m : Int) :
    (if v = a then m else if v = b then m else if v = c then m else if v = d then m
      else if v = "" then m else m + 1) = m + miss [a, b, c, d] v := by
  simp only [miss, List.mem_cons, List.mem_singleton, List.mem_nil_iff, or_false]
  split_ifs <;> first | rfl | omega | (exfalso; tauto)

/-- A `switch` with five accepted names. -/
theorem chain5 (v a b c d e : String) (m : Int) :
    (if v = a then m else if v = b then m else if v = c then m else if v = d then m
      else if v = e then m else if v = "" then m else m + 1) = m + miss [a, b, c, d, e] v := by
  simp only [miss, List.mem_cons, List.mem_singleton, List.mem_nil_iff, or_false]
  split_ifs <;> first | rfl | omega | (exfalso; tauto)

/-- A `switch` with six accepted names. -/
theorem chain6 (v a b c d e f : String) (m : Int) :
    (if v = a then m else if v = b then m else if v = c then m else if v = d then m
      else if v = e then m else if v = f then m else if v = "" then m else m + 1)
      = m + miss [a, b, c, d, e, f] v := by
  simp only [miss, List.mem_cons, List.mem_singleton, List.mem_nil_iff, or_false]
  split_ifs <;> first | rfl | omega | (exfalso; tauto)

/-- A format `switch` in which the cloudevents case falls through into the default. -/
theorem chainFallthrough (v a b x : String) (m : Int) :
    (if v = a then m else if v = b then m else if v = "" then m
      else if v = x then m + 1 else m + 1) = m + miss [a, b] v := by
  simp only [miss, List.mem_cons, List.mem_singleton, List.mem_nil_iff, or_false]
  split_ifs <;> first | rfl | omega | (exfalso; tauto)

theorem checkLoggerTypes_eq (c : Consts) (lc : LoggerConfiguration) (n : Int) :
    checkLoggerTypes c lc n =
      n + miss c.logPackages lc.LogPackage + miss c.logLevels lc.LogLevel +
        miss c.plainFormats lc.ConsoleFormat + miss c.writers lc.ConsoleWriter +
        miss c.formats lc.KafkaFormat + miss c.plainFormats lc.FileFormat := by
  unfold checkLoggerTypes
  simp only [chain2 lc.LogPackage, chain6 lc.LogLevel, chainFallthrough lc.ConsoleFormat,
    chain2 lc.ConsoleWriter, chain3 lc.KafkaFormat, chainFallthrough lc.FileFormat]
  rfl

theorem checkProducerTypes_eq (c : Consts) (pc : ProducerConfiguration) (n : Int) :
    checkProducerTypes c pc n =
      n + miss c.partitions pc.Partition + miss c.keys pc.Key +
        miss c.compressions pc.Compression + miss c.ackWaits pc.AckWait := by
  unfold checkProducerTypes
  simp only [chain3 pc.Partition, chain6 pc.Key, chain5 pc.Compression, chain3 pc.AckWait]
  rfl

theorem checkCETypes_eq (c : Consts) (cc : CloudEventsConfiguration) (n : Int) :
    checkCETypes c cc n = n + miss c.setIDs cc.SetID := by
  unfold checkCETypes
  simp only [chain4]
  rfl

/-- A test that adds one error when `p` holds. -/
theorem bump (p : Prop) [Decidable p] (m : Int) :
    (if p then m + 1 else m) = m + (if p then 1 else 0) := by
  split_ifs <;> simp

theorem checkLoggerConfig_eq (c : Consts) (lc : LoggerConfiguration) (n : Int) :
    checkLoggerConfig c lc n = checkLoggerTypes c lc n + ceWithoutCloudEvents c lc := by
  unfold checkLoggerConfig ceWithoutCloudEvents
  simp only [bump]

theorem checkProducerConfig_eq (c : Consts) (pc : ProducerConfiguration) (n : Int) :
    checkProducerConfig c pc n =
      checkProducerTypes c pc n + tlsMissing pc + negative pc.ProdFlushFreq +
        negative pc.ProdRetryMax + negative pc.ProdRetryFreq + negative pc.MetaRetryMax +
        negative pc.MetaRetryFreq := by
  unfold checkProducerConfig tlsMissing negative
  simp only [bump]

theorem checkRotationConfig_eq (rc : RotationConfiguration) (n : Int) :
    checkRotationConfig rc n =
      n + negative rc.MaxSize + negative rc.MaxAge + negative rc.MaxBackups := by
  unfold checkRotationConfig negative
  simp only [bump]

theorem negative_nonneg (x : Int) : 0 ≤ negative x := by
  unfold negative; split_ifs <;> decide

theorem negative_eq_zero_iff (x : Int) : negative x = 0 ↔ 0 ≤ x := by
  unfold negative; split_ifs <;> omega

theorem tlsMissing_nonneg (pc : ProducerConfiguration) : 0 ≤ tlsMissing pc := by
  unfold tlsMissing; split_ifs <;> decide

theorem ceWithoutCloudEvents_nonneg (c : Consts) (lc : LoggerConfiguration) :
    0 ≤ ceWithoutCloudEvents c lc := by
  unfold ceWithoutCloudEvents; split_ifs <;> decide

/-! ## Validation: monotonicity -/

theorem le_checkLoggerTypes (c : Consts) (lc : LoggerConfiguration) (n : Int) :
    n ≤ checkLoggerTypes c lc n := by
  rw [checkLoggerTypes_eq]
  have h1 := miss_nonneg c.logPackages lc.LogPackage
  have h2 := miss_nonneg c.logLevels lc.LogLevel
  have h3 := miss_nonneg c.plainFormats lc.ConsoleFormat
  have h4 := miss_nonneg c.writers lc.ConsoleWriter
  have h5 := miss_nonneg c.formats lc.KafkaFormat
  have h6 := miss_nonneg c.plainFormats lc.FileFormat
  omega

theorem le_checkLoggerConfig (c : Consts) (lc : LoggerConfiguration) (n : Int) :
    n ≤ checkLoggerConfig c lc n := by
  rw [checkLoggerConfig_eq]
  have h1 := le_checkLoggerTypes c lc n
  have h2 := ceWithoutCloudEvents_nonneg c lc
  omega

theorem le_checkProducerTypes (c : Consts) (pc : ProducerConfiguration) (n : Int) :
    n ≤ checkProducerTypes c pc n := by
  rw [checkProducerTypes_eq]
  have h1 := miss_nonneg c.partitions pc.Partition
  have h2 := miss_nonneg c.keys pc.Key
  have h3 := miss_nonneg c.compressions pc.Compression
  have h4 := miss_nonneg c.ackWaits pc.AckWait
  omega

theorem le_checkProducerConfig (c : Consts) (pc : ProducerConfiguration) (n : Int) :
    n ≤ checkProducerConfig c pc n := by
  rw [checkProducerConfig_eq]
  have h0 := le_checkProducerTypes c pc n
  have h1 := tlsMissing_nonneg pc
  have h2 := negative_nonneg pc.ProdFlushFreq
  have h3 := negative_nonneg pc.ProdRetryMax
  have h4 := negative_nonneg pc.ProdRetryFreq
  have h5 := negative_nonneg pc.MetaRetryMax
  have h6 := negative_nonneg pc.MetaRetryFreq
  omega

theorem le_checkCETypes (c : Consts) (cc : CloudEventsConfiguration) (n : Int) :
    n ≤ checkCETypes c cc n := by
  rw [checkCETypes_eq]
  have h1 := miss_nonneg c.setIDs cc.SetID
  omega

theorem le_checkRotationConfig (rc : RotationConfiguration) (n : Int) :
    n ≤ checkRotationConfig rc n := by
  rw [checkRotationConfig_eq]
  have h1 := negative_nonneg rc.MaxSize
  have h2 := negative_nonneg rc.MaxAge
  have h3 := negative_nonneg rc.MaxBackups
  omega

/-- The counter of `checkConfig` is at least the counter after `checkLoggerConfig`. -/
theorem checkLoggerConfig_le_count (c : Consts) (config : LoggerConfiguration) :
    checkLoggerConfig c config 0 ≤ checkConfigCount c config := by
  unfold checkConfigCount
  have hp := le_checkProducerConfig c config.KafkaProducerCfg (checkLoggerConfig c config 0)
  have hce := le_checkCETypes c config.CloudEventsCfg
    (checkProducerConfig c config.KafkaProducerCfg (checkLoggerConfig c config 0))
  have hr1 := le_checkRotationConfig config.RotationCfg
    (checkCETypes c config.CloudEventsCfg
      (checkProducerConfig c config.KafkaProducerCfg (checkLoggerConfig c config 0)))
  have hr2 := le_checkRotationConfig config.RotationCfg
    (checkProducerConfig c config.KafkaProducerCfg (checkLoggerConfig c config 0))
  have hr3 := le_checkRotationConfig config.RotationCfg (checkLoggerConfig c config 0)
  simp only []
  split_ifs <;> omega

/-- The function `checkConfig` returns an error exactly when the counter is positive. -/
theorem checkConfig_eq_some_iff (c : Consts) (config : LoggerConfiguration) :
    checkConfig c config = some "Invalid configuration" ↔ 1 ≤ checkConfigCount c config := by
  unfold checkConfig
  split_ifs with h
  · simp only [true_iff]; omega
  · simp only [false_iff, reduceCtorEq]; omega

theorem checkConfig_eq_none_iff (c : Consts) (config : LoggerConfiguration) :
    checkConfig c config = none ↔ checkConfigCount c config ≤ 0 := by
  unfold checkConfig
  split_ifs with h
  · simp only [false_iff, reduceCtorEq]; omega
  · simp only [true_iff]; omega

/-! ## Validation: accepted values -/

/-- C3, as stated, fails on two inputs.  With every enumerated field in its value set, cloud
events enabled and all numeric fields non-negative: (1) a console format equal to the
cloudevents format makes `checkLoggerTypes` add one error and `checkConfig` fail; (2) Kafka with
TLS enabled and no TLS material leaves the three type checkers at zero but `checkConfig` still
fails. -/
theorem ce_console_format_rejected :
    (EnumsInSets sampleConsts sampleCEConsoleCfg ∧
      sampleCEConsoleCfg.EnableCloudEvents = true ∧ NumericsNonNeg sampleCEConsoleCfg ∧
      checkLoggerTypes sampleConsts sampleCEConsoleCfg 0 = 1 ∧
      checkConfig sampleConsts sampleCEConsoleCfg = some "Invalid configuration") ∧
    (EnumsInSets sampleConsts sampleTLSCfg ∧
      sampleTLSCfg.EnableCloudEvents = true ∧ NumericsNonNeg sampleTLSCfg ∧
      checkLoggerTypes sampleConsts sampleTLSCfg 0 = 0 ∧
      checkProducerTypes sampleConsts sampleTLSCfg.KafkaProducerCfg 0 = 0 ∧
      checkCETypes sampleConsts sampleTLSCfg.CloudEventsCfg 0 = 0 ∧
      checkConfig sampleConsts sampleTLSCfg = some "Invalid configuration") := by
  decide

/-- Whatever the (well-formed) names of the formats are, a console or file format equal to the
cloudevents format is counted as an error by `checkLoggerTypes`, cloud events enabled or not. -/
theorem ce_format_rejected_for_console_and_file (c : Consts) (lc : LoggerConfiguration)
    (n : Int) (hc : c.WellFormed)
    (h : lc.ConsoleFormat = c.CEFormat ∨ lc.FileFormat = c.CEFormat) :
    n + 1 ≤ checkLoggerTypes c lc n := by
  obtain ⟨-, -, hfmt, -⟩ := hc
  simp only [List.nodup_cons, List.mem_cons, List.mem_singleton, List.not_mem_nil,
    not_or, or_false, not_false_eq_true, List.nodup_nil, and_true] at hfmt
  obtain ⟨⟨h1, h2, h3⟩, ⟨h4, h5⟩, h6⟩ := hfmt
  have hunk : Unknown c.plainFormats c.CEFormat := by
    refine ⟨fun e => h3 e.symm, ?_⟩
    simp only [Consts.plainFormats, List.mem_cons, List.mem_singleton, List.not_mem_nil,
      or_false, not_or]
    exact ⟨fun e => h5 e.symm, fun e => h6 e.symm⟩
  have p1 := miss_nonneg c.logPackages lc.LogPackage
  have p2 := miss_nonneg c.logLevels lc.LogLevel
  have p3 := miss_nonneg c.plainFormats lc.ConsoleFormat
  have p4 := miss_nonneg c.writers lc.ConsoleWriter
  have p5 := miss_nonneg c.formats lc.KafkaFormat
  have p6 := miss_nonneg c.plainFormats lc.FileFormat
  rw [checkLoggerTypes_eq]
  rcases h with h | h
  · have := miss_eq_one (h ▸ hunk : Unknown c.plainFormats lc.ConsoleFormat)
    omega
  · have := miss_eq_one (h ▸ hunk : Unknown c.plainFormats lc.FileFormat)
    omega

/-- C3, amended.  For every configuration in which each enumerated field holds a name its
`switch` accepts (console and file format JSON or text only, Kafka format any of the three),
with cloud events enabled, all numeric fields non-negative, and TLS material present whenever
Kafka and TLS are both enabled: `checkLoggerTypes`, `checkProducerTypes` and `checkCETypes` each
leave the error counter unchanged, the counter of `checkConfig` ends at zero and `checkConfig`
returns no error. -/
theorem accepted_enums_no_errors (c : Consts) (config : LoggerConfiguration) (n : Int)
    (henum : EnumsAccepted c config)
    (hce : config.EnableCloudEvents = true)
    (hnum : NumericsNonNeg config)
    (htls : ¬ (config.EnableKafka = true ∧ config.KafkaProducerCfg.EnableTLS = true ∧
      config.KafkaProducerCfg.TLSCfg = none)) :
    checkLoggerTypes c config n = n ∧
    checkProducerTypes c config.KafkaProducerCfg n = n ∧
    checkCETypes c config.CloudEventsCfg n = n ∧
    checkConfigCount c config = 0 ∧
    checkConfig c config = none := by
  obtain ⟨e1, e2, e3, e4, e5, e6, e7, e8, e9, e10, e11⟩ := henum
  obtain ⟨n1, n2, n3, n4, n5, n6, n7, n8⟩ := hnum
  have hL : ∀ m, checkLoggerTypes c config m = m := by
    intro m
    rw [checkLoggerTypes_eq, miss_eq_zero (Or.inr e1), miss_eq_zero (Or.inr e2),
      miss_eq_zero (Or.inr e3), miss_eq_zero (Or.inr e4), miss_eq_zero (Or.inr e5),
      miss_eq_zero (Or.inr e6)]
    omega
  have hP : ∀ m, checkProducerTypes c config.KafkaProducerCfg m = m := by
    intro m
    rw [checkProducerTypes_eq, miss_eq_zero (Or.inr e7), miss_eq_zero (Or.inr e8),
      miss_eq_zero (Or.inr e9), miss_eq_zero (Or.inr e10)]
    omega
  have hC : ∀ m, checkCETypes c config.CloudEventsCfg m = m := by
    intro m
    rw [checkCETypes_eq, miss_eq_zero (Or.inr e11)]
    omega
  have hLC : checkLoggerConfig c config 0 = 0 := by
    rw [checkLoggerConfig_eq, hL]
    simp [ceWithoutCloudEvents, hce]
  have hR : ∀ m, checkRotationConfig config.RotationCfg m = m := by
    intro m
    rw [checkRotationConfig_eq, (negative_eq_zero_iff _).mpr n6,
      (negative_eq_zero_iff _).mpr n7, (negative_eq_zero_iff _).mpr n8]
    omega
  have hPC : config.EnableKafka = true →
      ∀ m, checkProducerConfig c config.KafkaProducerCfg m = m := by
    intro hk m
    have ht : tlsMissing config.KafkaProducerCfg = 0 := by
      unfold tlsMissing
      rw [if_neg]
      exact fun h => htls ⟨hk, h.1, h.2⟩
    rw [checkProducerConfig_eq, hP, ht, (negative_eq_zero_iff _).mpr n1,
      (negative_eq_zero_iff _).mpr n2, (negative_eq_zero_iff _).mpr n3,
      (negative_eq_zero_iff _).mpr n4, (negative_eq_zero_iff _).mpr n5]
    omega
  have hcount : checkConfigCount c config = 0 := by
    unfold checkConfigCount
    by_cases hk : config.EnableKafka = true
    · simp only [hLC, hce, hk, if_true, hPC hk, hC, hR, ite_self]
    · rw [Bool.not_eq_true] at hk
      simp [hLC, hk, hR]
  refine ⟨hL n, hP n, hC n, hcount, ?_⟩
  rw [checkConfig_eq_none_iff, hcount]

/-- C3 amended, at a concrete input: the built-in defaults with Kafka switched on and the
console format left at text. -/
theorem accepted_enums_no_errors_witness :
    EnumsAccepted sampleConsts { sampleCfg with EnableKafka := true } ∧
    checkConfigCount sampleConsts { sampleCfg with EnableKafka := true } = 0 ∧
    checkConfig sampleConsts { sampleCfg with EnableKafka := true } = none :=
  ⟨by decide,
    (accepted_enums_no_errors sampleConsts { sampleCfg with EnableKafka := true } 0
      (by decide) (by decide) (by decide) (by decide)).2.2.2⟩

/-! ## Validation: rejected values -/

/-- C4, as stated, fails: in the built-in defaults (Kafka disabled) an unknown, non-empty
partition name leaves the error counter of `checkConfig` at zero and no error is returned. -/
theorem unknown_partition_unchecked_when_kafka_disabled :
    Unknown sampleConsts.partitions sampleBadPartitionCfg.KafkaProducerCfg.Partition ∧
    sampleBadPartitionCfg.EnableKafka = false ∧
    checkConfigCount sampleConsts sampleBadPartitionCfg = 0 ∧
    checkConfig sampleConsts sampleBadPartitionCfg = none := by
  decide

/-- C4, amended.  For every configuration in which an enumerated field that `checkConfig`
inspects holds a non-empty value its `switch` does not accept (any logger field - for the
console and file formats the accepted names are JSON and text only -; a producer field while
Kafka is enabled; `SetID` while Kafka and cloud events are both enabled), the error counter of
`checkConfig` ends at one or more and `checkConfig` returns an error. -/
theorem checked_unknown_enum_is_error (c : Consts) (config : LoggerConfiguration)
    (h : HasCheckedUnknown c config) :
    1 ≤ checkConfigCount c config ∧ checkConfig c config = some "Invalid configuration" := by
  have hcount : 1 ≤ checkConfigCount c config := by
    have p1 := miss_nonneg c.logPackages config.LogPackage
    have p2 := miss_nonneg c.logLevels config.LogLevel
    have p3 := miss_nonneg c.plainFormats config.ConsoleFormat
    have p4 := miss_nonneg c.writers config.ConsoleWriter
    have p5 := miss_nonneg c.formats config.KafkaFormat
    have p6 := miss_nonneg c.plainFormats config.FileFormat
    have hx := ceWithoutCloudEvents_nonneg c config
    have hbase := checkLoggerConfig_le_count c config
    have hLC := checkLoggerConfig_eq c config 0
    have hLT := checkLoggerTypes_eq c config 0
    rcases h with h | h | h | h | h | h | ⟨hk, h⟩ | ⟨hk, hce, h⟩
    · have := miss_eq_one h; omega
    · have := miss_eq_one h; omega
    · have := miss_eq_one h; omega
    · have := miss_eq_one h; omega
    · have := miss_eq_one h; omega
    · have := miss_eq_one h; omega
    · have q1 := miss_nonneg c.partitions config.KafkaProducerCfg.Partition
      have q2 := miss_nonneg c.keys config.KafkaProducerCfg.Key
      have q3 := miss_nonneg c.compressions config.KafkaProducerCfg.Compression
      have q4 := miss_nonneg c.ackWaits config.KafkaProducerCfg.AckWait
      have hPT := checkProducerTypes_eq c config.KafkaProducerCfg (checkLoggerConfig c config 0)
      have hPC := checkProducerConfig_eq c config.KafkaProducerCfg (checkLoggerConfig c config 0)
      have t0 := tlsMissing_nonneg config.KafkaProducerCfg
      have t1 := negative_nonneg config.KafkaProducerCfg.ProdFlushFreq
      have t2 := negative_nonneg config.KafkaProducerCfg.ProdRetryMax
      have t3 := negative_nonneg config.KafkaProducerCfg.ProdRetryFreq
      have t4 := negative_nonneg config.KafkaProducerCfg.MetaRetryMax
      have t5 := negative_nonneg config.KafkaProducerCfg.MetaRetryFreq
      have hsum : 1 ≤ miss c.partitions config.KafkaProducerCfg.Partition +
          miss c.keys config.KafkaProducerCfg.Key +
          miss c.compressions config.KafkaProducerCfg.Compression +
          miss c.ackWaits config.KafkaProducerCfg.AckWait := by
        rcases h with h | h | h | h
        · have := miss_eq_one h; omega
        · have := miss_eq_one h; omega
        · have := miss_eq_one h; omega
        · have := miss_eq_one h; omega
      have hprod : 1 ≤ checkProducerConfig c config.KafkaProducerCfg
          (checkLoggerConfig c config 0) := by omega
      have hce := le_checkCETypes c config.CloudEventsCfg
        (checkProducerConfig c config.KafkaProducerCfg (checkLoggerConfig c config 0))
      have hr1 := le_checkRotationConfig config.RotationCfg
        (checkCETypes c config.CloudEventsCfg
          (checkProducerConfig c config.KafkaProducerCfg (checkLoggerConfig c config 0)))
      have hr2 := le_checkRotationConfig config.RotationCfg
        (checkProducerConfig c config.KafkaProducerCfg (checkLoggerConfig c config 0))
      unfold checkConfigCount
      simp only [hk, if_true]
      split_ifs <;> omega
    · have hp := le_checkProducerConfig c config.KafkaProducerCfg (checkLoggerConfig c config 0)
      have hCE := checkCETypes_eq c config.CloudEventsCfg
        (checkProducerConfig c config.KafkaProducerCfg (checkLoggerConfig c config 0))
      have hone := miss_eq_one h
      have hr1 := le_checkRotationConfig config.RotationCfg
        (checkCETypes c config.CloudEventsCfg
          (checkProducerConfig c config.KafkaProducerCfg (checkLoggerConfig c config 0)))
      unfold checkConfigCount
      simp only [hk, hce, if_true]
      split_ifs <;> omega
  exact ⟨hcount, (checkConfig_eq_some_iff c config).mpr hcount⟩

/-- C4 amended, at a concrete input: an unknown log level in the built-in defaults. -/
theorem checked_unknown_enum_is_error_witness :
    HasCheckedUnknown sampleConsts sampleBadLevelCfg ∧
    1 ≤ checkConfigCount sampleConsts sampleBadLevelCfg ∧
    checkConfig sampleConsts sampleBadLevelCfg = some "Invalid configuration" :=
  ⟨by decide, checked_unknown_enum_is_error sampleConsts sampleBadLevelCfg (by decide)⟩

/-! ## Validation: cross-field rules -/

/-- C5. For every configuration with `EnableCloudEvents` false in which the console, file or
Kafka format equals the cloudevents format, `checkLoggerConfig` increases the error counter by
at least one and `checkConfig` returns an error. -/
theorem ce_format_requires_cloudevents (c : Consts) (lc : LoggerConfiguration) (n : Int)
    (hce : lc.EnableCloudEvents = false)
    (hfmt : lc.ConsoleFormat = c.CEFormat ∨ lc.FileFormat = c.CEFormat ∨
      lc.KafkaFormat = c.CEFormat) :
    n + 1 ≤ checkLoggerConfig c lc n ∧ checkConfig c lc = some "Invalid configuration" := by
  have hx : ceWithoutCloudEvents c lc = 1 := by
    unfold ceWithoutCloudEvents
    rw [if_pos ⟨hfmt, hce⟩]
  have hstep : ∀ m, m + 1 ≤ checkLoggerConfig c lc m := by
    intro m
    have h1 := checkLoggerConfig_eq c lc m
    have h2 := le_checkLoggerTypes c lc m
    omega
  refine ⟨hstep n, (checkConfig_eq_some_iff c lc).mpr ?_⟩
  have h0 := hstep 0
  have hbase := checkLoggerConfig_le_count c lc
  omega

/-- C5 at a concrete input: the built-in defaults with cloud events switched off. -/
theorem ce_format_requires_cloudevents_witness :
    sampleNoCECfg.EnableCloudEvents = false ∧
    sampleNoCECfg.KafkaFormat = sampleConsts.CEFormat ∧
    0 + 1 ≤ checkLoggerConfig sampleConsts sampleNoCECfg 0 ∧
    checkConfig sampleConsts sampleNoCECfg = some "Invalid configuration" :=
  ⟨rfl, rfl,
    ce_format_requires_cloudevents sampleConsts sampleNoCECfg 0 rfl (Or.inr (Or.inr rfl))⟩

/-- C6, as stated, fails: for the default producer configuration with the extracted-key
strategy and an empty `KeyName`, `checkProducerConfig` leaves the error counter unchanged, and
with Kafka enabled `checkConfig` returns no error. -/
theorem extracted_key_without_name_accepted :
    sampleExtractedProducer.Key = sampleConsts.ExtractedKey ∧
    sampleExtractedProducer.KeyName = "" ∧
    checkProducerConfig sampleConsts sampleExtractedProducer 0 = 0 ∧
    sampleExtractedCfg.EnableKafka = true ∧
    sampleExtractedCfg.KafkaProducerCfg = sampleExtractedProducer ∧
    checkConfig sampleConsts sampleExtractedCfg = none := by
  decide

/-- C6, amended.  For every producer configuration whose key strategy is `ExtractedKey` and
whose `KeyName` is empty, `checkProducerConfig` returns the same counter as for the same
configuration with any other `KeyName` (the field is never inspected), and it leaves the
counter unchanged when the partition, compression and acknowledgement names are accepted, TLS
material is present if TLS is enabled, and the numeric fields are non-negative. -/
theorem extracted_key_name_not_inspected (c : Consts) (pc : ProducerConfiguration) (n : Int)
    (name : String) (hkey : pc.Key = c.ExtractedKey) (_hname : pc.KeyName = "") :
    checkProducerConfig c { pc with KeyName := name } n = checkProducerConfig c pc n ∧
    (pc.Partition ∈ c.partitions → pc.Compression ∈ c.compressions →
      pc.AckWait ∈ c.ackWaits → ¬ (pc.EnableTLS = true ∧ pc.TLSCfg = none) →
      0 ≤ pc.ProdFlushFreq → 0 ≤ pc.ProdRetryMax → 0 ≤ pc.ProdRetryFreq →
      0 ≤ pc.MetaRetryMax → 0 ≤ pc.MetaRetryFreq →
      checkProducerConfig c pc n = n) := by
  refine ⟨rfl, fun h1 h3 h4 ht n1 n2 n3 n4 n5 => ?_⟩
  have hk : pc.Key ∈ c.keys := by
    rw [hkey]; simp [Consts.keys]
  have htls : tlsMissing pc = 0 := by
    unfold tlsMissing; rw [if_neg ht]
  rw [checkProducerConfig_eq, checkProducerTypes_eq, miss_eq_zero (Or.inr h1),
    miss_eq_zero (Or.inr hk), miss_eq_zero (Or.inr h3), miss_eq_zero (Or.inr h4), htls,
    (negative_eq_zero_iff _).mpr n1, (negative_eq_zero_iff _).mpr n2,
    (negative_eq_zero_iff _).mpr n3, (negative_eq_zero_iff _).mpr n4,
    (negative_eq_zero_iff _).mpr n5]
  omega

/-- C6 amended, at a concrete input: the default producer configuration with the extracted-key
strategy and an empty key name. -/
theorem extracted_key_name_not_inspected_witness :
    sampleExtractedProducer.Key = sampleConsts.ExtractedKey ∧
    sampleExtractedProducer.KeyName = "" ∧
    checkProducerConfig sampleConsts { sampleExtractedProducer with KeyName := "subject" } 0 =
      checkProducerConfig sampleConsts sampleExtractedProducer 0 ∧
    checkProducerConfig sampleConsts sampleExtractedProducer 0 = 0 :=
  ⟨rfl, rfl,
    (extracted_key_name_not_inspected sampleConsts sampleExtractedProducer 0 "subject"
      rfl rfl).1,
    (extracted_key_name_not_inspected sampleConsts sampleExtractedProducer 0 "subject"
      rfl rfl).2 (by decide) (by decide) (by decide) (by decide) (by decide) (by decide)
      (by decide) (by decide) (by decide)⟩

/-- C7. For every rotation configuration, `checkRotationConfig` leaves the error counter
unchanged if and only if `MaxSize`, `MaxAge` and `MaxBackups` are all non-negative; a negative
`MaxAge` adds at least one error and, with `EnableRotation` set, makes `checkConfig` return an
error; `MaxAge = 0` with the other two fields non-negative is accepted. -/
theorem rotation_accepted_iff_nonneg (rc : RotationConfiguration) (n : Int) :
    (checkRotationConfig rc n = n ↔ 0 ≤ rc.MaxSize ∧ 0 ≤ rc.MaxAge ∧ 0 ≤ rc.MaxBackups) ∧
    (rc.MaxAge < 0 → n + 1 ≤ checkRotationConfig rc n) ∧
    (rc.MaxAge < 0 → ∀ (c : Consts) (config : LoggerConfiguration),
      config.EnableRotation = true → config.RotationCfg = rc →
      checkConfig c config = some "Invalid configuration") ∧
    (rc.MaxAge = 0 → 0 ≤ rc.MaxSize → 0 ≤ rc.MaxBackups → checkRotationConfig rc n = n) := by
  have hdec : ∀ m, checkRotationConfig rc m =
      m + negative rc.MaxSize + negative rc.MaxAge + negative rc.MaxBackups :=
    checkRotationConfig_eq rc
  have s0 := negative_nonneg rc.MaxSize
  have a0 := negative_nonneg rc.MaxAge
  have b0 := negative_nonneg rc.MaxBackups
  have s1 := negative_eq_zero_iff rc.MaxSize
  have a1 := negative_eq_zero_iff rc.MaxAge
  have b1 := negative_eq_zero_iff rc.MaxBackups
  have hiff : checkRotationConfig rc n = n ↔
      0 ≤ rc.MaxSize ∧ 0 ≤ rc.MaxAge ∧ 0 ≤ rc.MaxBackups := by
    rw [hdec n]
    constructor
    · intro h
      exact ⟨s1.mp (by omega), a1.mp (by omega), b1.mp (by omega)⟩
    · rintro ⟨h1, h2, h3⟩
      have := s1.mpr h1
      have := a1.mpr h2
      have := b1.mpr h3
      omega
  have hneg : rc.MaxAge < 0 → ∀ m, m + 1 ≤ checkRotationConfig rc m := by
    intro h m
    rw [hdec m]
    have : negative rc.MaxAge = 1 := by
      unfold negative; rw [if_pos h]
    omega
  refine ⟨hiff, fun h => hneg h n, ?_, fun h0 hs hb => hiff.mpr ⟨hs, by omega, hb⟩⟩
  intro h c config hrot hrc
  rw [checkConfig_eq_some_iff]
  subst hrc
  have hbase := checkLoggerConfig_le_count c config
  have hl := le_checkLoggerConfig c config 0
  have hp := le_checkProducerConfig c config.KafkaProducerCfg (checkLoggerConfig c config 0)
  have hce := le_checkCETypes c config.CloudEventsCfg
    (checkProducerConfig c config.KafkaProducerCfg (checkLoggerConfig c config 0))
  have r1 := hneg h (checkCETypes c config.CloudEventsCfg
    (checkProducerConfig c config.KafkaProducerCfg (checkLoggerConfig c config 0)))
  have r2 := hneg h (checkProducerConfig c config.KafkaProducerCfg (checkLoggerConfig c config 0))
  have r3 := hneg h (checkLoggerConfig c config 0)
  unfold checkConfigCount
  simp only [hrot, if_true]
  split_ifs <;> omega

/-- C7 at concrete inputs: the default rotation configuration (`MaxAge = 0`) is accepted, and
the defaults with rotation enabled and `MaxAge = -1` are rejected. -/
theorem rotation_accepted_iff_nonneg_witness :
    checkRotationConfig defaultRotationConfiguration 0 = 0 ∧
    checkConfig sampleConsts sampleNegAgeCfg = some "Invalid configuration" :=
  ⟨(rotation_accepted_iff_nonneg defaultRotationConfiguration 0).2.2.2 rfl (by decide)
      (by decide),
    (rotation_accepted_iff_nonneg sampleNegAgeCfg.RotationCfg 0).2.2.1 (by decide)
      sampleConsts sampleNegAgeCfg rfl rfl⟩

/-! ## Resolution: the configuration file and the sub-configurations -/

/-- In mode "env" `FillConfiguration` does not read a configuration file: its result is the
same whatever `ReadInConfig` would do. -/
theorem FillConfiguration_env_reads_no_file {α : Type} (x : Collaborators α)
    (r : Viper → Except String Viper) (defaultCfg : α) (filename pfx : String) :
    FillConfiguration { x with ReadInConfig := r } defaultCfg EnvConfig filename pfx
      = FillConfiguration x defaultCfg EnvConfig filename pfx := by
  have h : ¬ (EnvConfig = FileConfig ∨ EnvConfig = BothConfig) := by decide
  unfold FillConfiguration
  simp only [h, if_false]

/-- C12 on the code: in every configuration `GetLoggerConfiguration` returns, in every mode,
each sub-configuration (producer, cloudevents, rotation) is exactly the result of its own
`FillConfiguration` call in mode "env" with an empty file name - built-in defaults and
environment only - and replaces whatever the resolution of the complete configuration, the
only one that reads the configuration file, had put there. -/
theorem subconfigs_ignore_config_file (c : Consts) (w : World) (g : Globals)
    (cfgType cfgFileName : String) (cfg : LoggerConfiguration)
    (h : (GetLoggerConfiguration c w g cfgType cfgFileName).config = some cfg) :
    FillConfiguration w.kafka (DefaultProducerCfg (setDefaultKeyName w g)) EnvConfig ""
      KafkaEnvPrefix = .ok cfg.KafkaProducerCfg ∧
    FillConfiguration w.cloudevents (DefaultCloudEventsCfg c) EnvConfig ""
      CloudEventsEnvPrefix = .ok cfg.CloudEventsCfg ∧
    FillConfiguration w.rotation DefaultRotationCfg EnvConfig "" RotationEnvPrefix
      = .ok cfg.RotationCfg ∧
    ∃ fileCfg : LoggerConfiguration,
      FillConfiguration w.logger (DefaultCompleteCfg c (setDefaultKeyName w g)) cfgType
        cfgFileName LogEnvPrefix = .ok fileCfg ∧
      cfg = { fileCfg with
              KafkaProducerCfg := cfg.KafkaProducerCfg
              CloudEventsCfg := cfg.CloudEventsCfg
              RotationCfg := cfg.RotationCfg } := by
  unfold GetLoggerConfiguration at h
  simp only [] at h
  split at h
  · simp at h
  · split at h
    · simp at h
    · rename_i fileCfg hfile
      split at h
      · simp at h
      · rename_i k hk
        split at h
        · simp at h
        · rename_i x hx
          split at h
          · simp at h
          · rename_i r hr
            simp only [Option.some.injEq] at h
            subst h
            exact ⟨hk, hx, hr, fileCfg, hfile, rfl⟩

/-- C12 at a concrete input: mode "file", no environment overrides, a configuration file that
sets the producer topic to "audit".  The complete configuration decoded from the file carries
the topic "audit", but the configuration returned carries the default topic "logs". -/
theorem subconfigs_ignore_config_file_witness :
    (∃ fileCfg : LoggerConfiguration,
      FillConfiguration sampleFileWorld.logger
        (DefaultCompleteCfg sampleConsts (Globals.init sampleConsts)) "file" "pr_log_config"
        LogEnvPrefix = .ok fileCfg ∧
      fileCfg.KafkaProducerCfg.Topic = "audit") ∧
    ∃ cfg : LoggerConfiguration,
      (GetLoggerConfiguration sampleConsts sampleFileWorld (Globals.init sampleConsts) "file"
        "pr_log_config").config = some cfg ∧
      (GetLoggerConfiguration sampleConsts sampleFileWorld (Globals.init sampleConsts) "file"
        "pr_log_config").err = none ∧
      cfg.KafkaProducerCfg.Topic = "logs" ∧
      (defaultProducerConfiguration sampleConsts).Topic = "logs" ∧
      FillConfiguration sampleFileWorld.kafka
        (DefaultProducerCfg (setDefaultKeyName sampleFileWorld (Globals.init sampleConsts)))
        EnvConfig "" KafkaEnvPrefix = .ok cfg.KafkaProducerCfg :=
  ⟨⟨_, rfl, rfl⟩, _, rfl, rfl, rfl, rfl,
    (subconfigs_ignore_config_file sampleConsts sampleFileWorld (Globals.init sampleConsts)
      "file" "pr_log_config" _ rfl).1⟩

/-! ## Resolution: recoverable failures and `init` -/

/-- Every error result of `GetLoggerConfiguration` comes with a nil configuration. -/
theorem config_none_of_err (c : Consts) (w : World) (g : Globals)
    (cfgType cfgFileName : String) (err : GoError)
    (herr : (GetLoggerConfiguration c w g cfgType cfgFileName).err = some err) :
    (GetLoggerConfiguration c w g cfgType cfgFileName).config = none := by
  by_cases hm : cfgType = EnvConfig ∨ cfgType = FileConfig ∨ cfgType = BothConfig
  · cases hl : FillConfiguration w.logger (DefaultCompleteCfg c (setDefaultKeyName w g))
        cfgType cfgFileName LogEnvPrefix with
    | error e => simp [GetLoggerConfiguration, hm, hl]
    | ok config =>
      cases hk : FillConfiguration w.kafka (DefaultProducerCfg (setDefaultKeyName w g))
          EnvConfig "" KafkaEnvPrefix with
      | error e => simp [GetLoggerConfiguration, hm, hl, hk]
      | ok k =>
        cases hx : FillConfiguration w.cloudevents (DefaultCloudEventsCfg c) EnvConfig ""
            CloudEventsEnvPrefix with
        | error e => simp [GetLoggerConfiguration, hm, hl, hk, hx]
        | ok x =>
          cases hr : FillConfiguration w.rotation DefaultRotationCfg EnvConfig ""
              RotationEnvPrefix with
          | error e => simp [GetLoggerConfiguration, hm, hl, hk, hx, hr]
          | ok r => simp [GetLoggerConfiguration, hm, hl, hk, hx, hr] at herr
  · simp [GetLoggerConfiguration, hm]

/-- C13 on the code: whenever `GetLoggerConfiguration` reports a recoverable (`ErrNonFatal`)
failure, the configuration it returns is nil; `init`, which exits only on `ErrFatal`, then
dereferences that nil configuration and panics. -/
theorem nonfatal_failure_returns_nil_config (c : Consts) (w : World) (g : Globals)
    (cfgType cfgFileName : String) (err : GoError)
    (herr : (GetLoggerConfiguration c w g cfgType cfgFileName).err = some err)
    (hnf : err.Is Sentinel.ErrNonFatal = true) :
    (GetLoggerConfiguration c w g cfgType cfgFileName).config = none ∧
    ∀ x : InitDeps, x.Getenv LogAutoInitEnvName = "true" → initAutoCfg x = cfgType →
      initFilename x = cfgFileName → init c w x g = InitOutcome.panic := by
  have hnil := config_none_of_err c w g cfgType cfgFileName err herr
  refine ⟨hnil, fun x hauto hmode hfile => ?_⟩
  have hfatal : err.Is Sentinel.ErrFatal = false := by
    unfold GoError.Is at hnf ⊢
    have hw : err.wraps = Sentinel.ErrNonFatal := of_decide_eq_true hnf
    rw [hw]
    decide
  unfold init
  simp only [hauto, hmode, hfile, herr, hnil, hfatal, ne_eq, not_true_eq_false, if_false,
    Bool.false_eq_true]

/-- C13 at a concrete input: auto-initialisation in mode "env" while the rotation layer cannot
be decoded and rotation is disabled. -/
theorem nonfatal_failure_returns_nil_config_witness :
    (GetLoggerConfiguration sampleConsts sampleWorldBadRotation (Globals.init sampleConsts)
        "env" "pr_log_config").err
      = some (Errorf errRotation "cannot decode" Sentinel.ErrNonFatal) ∧
    (GetLoggerConfiguration sampleConsts sampleWorldBadRotation (Globals.init sampleConsts)
        "env" "pr_log_config").config = none ∧
    init sampleConsts sampleWorldBadRotation sampleInitDeps (Globals.init sampleConsts)
      = InitOutcome.panic :=
  ⟨rfl,
    (nonfatal_failure_returns_nil_config sampleConsts sampleWorldBadRotation
      (Globals.init sampleConsts) "env" "pr_log_config"
      (Errorf errRotation "cannot decode" Sentinel.ErrNonFatal) rfl rfl).1,
    (nonfatal_failure_returns_nil_config sampleConsts sampleWorldBadRotation
      (Globals.init sampleConsts) "env" "pr_log_config"
      (Errorf errRotation "cannot decode" Sentinel.ErrNonFatal) rfl rfl).2
      sampleInitDeps rfl rfl rfl⟩

/-! ## Validation: disabled features and the defaults -/

/-- The counter of `checkConfig` is the same for two configurations that agree on the counter
of `checkLoggerConfig`, on the three enable flags, and on each sub-configuration whose feature
is enabled. -/
theorem checkConfigCount_congr (c : Consts) (a b : LoggerConfiguration)
    (hL : checkLoggerConfig c a 0 = checkLoggerConfig c b 0)
    (hk : a.EnableKafka = b.EnableKafka) (hce : a.EnableCloudEvents = b.EnableCloudEvents)
    (hr : a.EnableRotation = b.EnableRotation)
    (hP : b.EnableKafka = true → a.KafkaProducerCfg = b.KafkaProducerCfg)
    (hC : b.EnableKafka = true → b.EnableCloudEvents = true →
      a.CloudEventsCfg = b.CloudEventsCfg)
    (hR : b.EnableRotation = true → a.RotationCfg = b.RotationCfg) :
    checkConfigCount c a = checkConfigCount c b := by
  unfold checkConfigCount
  simp only [hL, hk, hce, hr]
  cases hbk : b.EnableKafka <;> cases hbc : b.EnableCloudEvents <;>
    cases hbr : b.EnableRotation <;> simp_all

/-- C17. The function `checkConfig` validates a sub-configuration only when its feature is
enabled: replacing `KafkaProducerCfg` and `CloudEventsCfg` changes neither the error counter
nor the result when `EnableKafka` is false; replacing `CloudEventsCfg` alone changes neither
when `EnableKafka` or `EnableCloudEvents` is false; replacing `RotationCfg` changes neither when
`EnableRotation` is false. -/
theorem disabled_subconfigs_not_validated (c : Consts) (config : LoggerConfiguration) :
    (config.EnableKafka = false →
      ∀ (p : ProducerConfiguration) (ce : CloudEventsConfiguration),
        checkConfigCount c { config with KafkaProducerCfg := p, CloudEventsCfg := ce }
          = checkConfigCount c config ∧
        checkConfig c { config with KafkaProducerCfg := p, CloudEventsCfg := ce }
          = checkConfig c config) ∧
    ((config.EnableKafka = false ∨ config.EnableCloudEvents = false) →
      ∀ ce : CloudEventsConfiguration,
        checkConfigCount c { config with CloudEventsCfg := ce } = checkConfigCount c config ∧
        checkConfig c { config with CloudEventsCfg := ce } = checkConfig c config) ∧
    (config.EnableRotation = false →
      ∀ r : RotationConfiguration,
        checkConfigCount c { config with RotationCfg := r } = checkConfigCount c config ∧
        checkConfig c { config with RotationCfg := r } = checkConfig c config) := by
  have hres : ∀ config2 : LoggerConfiguration,
      checkConfigCount c config2 = checkConfigCount c config →
      checkConfigCount c config2 = checkConfigCount c config ∧
        checkConfig c config2 = checkConfig c config := by
    intro config2 h
    refine ⟨h, ?_⟩
    unfold checkConfig
    rw [h]
  refine ⟨fun hk p ce => hres _ ?_, fun h ce => hres _ ?_, fun hr r => hres _ ?_⟩
  · exact checkConfigCount_congr c _ config rfl rfl rfl rfl
      (fun h => absurd h (by rw [hk]; decide)) (fun h => absurd h (by rw [hk]; decide))
      (fun _ => rfl)
  · refine checkConfigCount_congr c _ config rfl rfl rfl rfl (fun _ => rfl) ?_ (fun _ => rfl)
    intro h1 h2
    rcases h with hk | hce
    · exact absurd h1 (by rw [hk]; decide)
    · exact absurd h2 (by rw [hce]; decide)
  · exact checkConfigCount_congr c _ config rfl rfl rfl rfl (fun _ => rfl) (fun _ _ => rfl)
      (fun h => absurd h (by rw [hr]; decide))

/-- C17 at concrete inputs: with Kafka disabled an unknown partition name and an unknown
`SetID` go unnoticed, and with rotation disabled a negative `MaxAge` goes unnoticed. -/
theorem disabled_subconfigs_not_validated_witness :
    checkConfig sampleConsts
        { sampleCfg with
          KafkaProducerCfg := { sampleCfg.KafkaProducerCfg with Partition := "bogus" }
          CloudEventsCfg := { sampleCfg.CloudEventsCfg with SetID := "bogus" } }
      = checkConfig sampleConsts sampleCfg ∧
    checkConfig sampleConsts
        { sampleCfg with RotationCfg := { defaultRotationConfiguration with MaxAge := -1 } }
      = checkConfig sampleConsts sampleCfg :=
  ⟨((disabled_subconfigs_not_validated sampleConsts sampleCfg).1 rfl
      { sampleCfg.KafkaProducerCfg with Partition := "bogus" }
      { sampleCfg.CloudEventsCfg with SetID := "bogus" }).2,
    ((disabled_subconfigs_not_validated sampleConsts sampleCfg).2.2 rfl
      { defaultRotationConfiguration with MaxAge := -1 }).2⟩

/-- C18. The built-in default configuration is valid: for every naming of the option values
and whatever `KeyName` the package state holds, `checkConfig` applied to the value of
`DefaultCompleteCfg()` leaves the error counter at zero and returns no error. -/
theorem default_config_is_valid (c : Consts) (g : Globals) :
    checkLoggerConfig c (DefaultCompleteCfg c g) 0 = 0 ∧
    checkConfigCount c (DefaultCompleteCfg c g) = 0 ∧
    checkConfig c (DefaultCompleteCfg c g) = none := by
  have hL : checkLoggerConfig c (DefaultCompleteCfg c g) 0 = 0 := by
    rw [checkLoggerConfig_eq, checkLoggerTypes_eq]
    have h1 : miss c.logPackages (DefaultCompleteCfg c g).LogPackage = 0 :=
      miss_eq_zero (Or.inr (by simp [Consts.logPackages, DefaultCompleteCfg,
        defaultLoggerConfiguration]))
    have h2 : miss c.logLevels (DefaultCompleteCfg c g).LogLevel = 0 :=
      miss_eq_zero (Or.inr (by simp [Consts.logLevels, DefaultCompleteCfg,
        defaultLoggerConfiguration]))
    have h3 : miss c.plainFormats (DefaultCompleteCfg c g).ConsoleFormat = 0 :=
      miss_eq_zero (Or.inr (by simp [Consts.plainFormats, DefaultCompleteCfg,
        defaultLoggerConfiguration]))
    have h4 : miss c.writers (DefaultCompleteCfg c g).ConsoleWriter = 0 :=
      miss_eq_zero (Or.inr (by simp [Consts.writers, DefaultCompleteCfg,
        defaultLoggerConfiguration]))
    have h5 : miss c.formats (DefaultCompleteCfg c g).KafkaFormat = 0 :=
      miss_eq_zero (Or.inr (by simp [Consts.formats, DefaultCompleteCfg,
        defaultLoggerConfiguration]))
    have h6 : miss c.plainFormats (DefaultCompleteCfg c g).FileFormat = 0 :=
      miss_eq_zero (Or.inr (by simp [Consts.plainFormats, DefaultCompleteCfg,
        defaultLoggerConfiguration]))
    have h7 : ceWithoutCloudEvents c (DefaultCompleteCfg c g) = 0 := by
      simp [ceWithoutCloudEvents, DefaultCompleteCfg, defaultLoggerConfiguration]
    rw [h1, h2, h3, h4, h5, h6, h7]
    rfl
  have hcount : checkConfigCount c (DefaultCompleteCfg c g) = 0 := by
    have hk : (DefaultCompleteCfg c g).EnableKafka = false := rfl
    have hr : (DefaultCompleteCfg c g).EnableRotation = false := rfl
    unfold checkConfigCount
    simp only [hL, hk, hr, Bool.false_eq_true, if_false]
  refine ⟨hL, hcount, ?_⟩
  rw [checkConfig_eq_none_iff, hcount]

end Logger

namespace GoLogger

/-! ## Key derivation in `sendMessage` -/

/-- C8 on the code: with the `ExtractedKey` strategy, for every message that decodes to an
object in which the field named by `KeyName` is absent or is not a string, `sendMessage`
neither returns an error nor publishes: the type assertion panics. -/
theorem extracted_key_missing_field_panics (d : SendDeps) (kp : KafkaProducer) (msg : String)
    (msgMap : JMap)
    (hkey : kp.config.Key = ExtractedKey)
    (hparse : d.jsonUnmarshal msg = .ok msgMap)
    (hmiss : ∀ s : String, msgMap.index kp.config.KeyName ≠ some (JValue.str s)) :
    sendMessage d kp msg = SendOutcome.panic ∧
    (∀ err, sendMessage d kp msg ≠ SendOutcome.error err) ∧
    (∀ m, sendMessage d kp msg ≠ SendOutcome.published m) := by
  have hassert : assertString (msgMap.index kp.config.KeyName) = none := by
    cases hv : msgMap.index kp.config.KeyName with
    | none => rfl
    | some v =>
      cases v with
      | str s => exact absurd hv (hmiss s)
      | null => rfl
      | bool b => rfl
      | number l => rfl
      | array l => rfl
      | object l => rfl
  have hk : sendMessageKey d kp msgMap = none := by
    unfold sendMessageKey
    rw [hkey, if_neg (by decide), if_pos rfl, hassert]
  have hp : sendMessage d kp msg = SendOutcome.panic := by
    unfold sendMessage
    rw [hparse]
    simp only [hk]
  refine ⟨hp, fun err h => ?_, fun m h => ?_⟩
  · rw [hp] at h; exact SendOutcome.noConfusion h
  · rw [hp] at h; exact SendOutcome.noConfusion h

/-- C8 at a concrete input: key strategy `ExtractedKey`, key name "subject", and a record with
no `subject` field. -/
theorem extracted_key_missing_field_panics_witness :
    sendMessage sampleSendDeps (sampleProducer ExtractedKey "subject") sampleMsg
      = SendOutcome.panic :=
  (extracted_key_missing_field_panics sampleSendDeps (sampleProducer ExtractedKey "subject")
    sampleMsg [("level", JValue.str "info"), ("msg", JValue.str "started")] rfl rfl
    (by intro s h; simp [JMap.index, List.lookup, sampleProducer, sampleProducerCfg] at h)).1

/-- C9. For every producer configured with the `FixedKey` strategy, every message that
`sendMessage` publishes carries the configured `KeyName` as its key, whatever the message
holds; and `sendMessage` does publish whenever decoding, enrichment and encoding succeed and a
producer is attached. -/
theorem fixed_key_is_key_name (d : SendDeps) (kp : KafkaProducer) (msg : String)
    (hkey : kp.config.Key = FixedKey) :
    (∀ m, sendMessage d kp msg = SendOutcome.published m → m.Key = kp.config.KeyName) ∧
    (∀ msgMap enriched newmsg p, d.jsonUnmarshal msg = .ok msgMap →
      d.ceAddFields kp msgMap = .ok enriched → d.jsonMarshal enriched = .ok newmsg →
      kp.producer = some p →
      sendMessage d kp msg = SendOutcome.published
        { Key := kp.config.KeyName, Topic := kp.config.Topic, Value := newmsg }) := by
  have hk : ∀ msgMap, sendMessageKey d kp msgMap = some kp.config.KeyName := by
    intro msgMap
    unfold sendMessageKey
    rw [if_pos hkey]
  constructor
  · intro m hm
    unfold sendMessage at hm
    split at hm
    · exact SendOutcome.noConfusion hm
    · rename_i msgMap _
      simp only [hk msgMap] at hm
      split at hm
      · exact SendOutcome.noConfusion hm
      · split at hm
        · exact SendOutcome.noConfusion hm
        · split at hm
          · exact SendOutcome.noConfusion hm
          · injection hm with hm
            rw [← hm]
  · intro msgMap enriched newmsg p h1 h2 h3 h4
    unfold sendMessage
    rw [h1]
    simp only [hk msgMap, h2, h3, h4]

/-- C9 at a concrete input: key name "user1". -/
theorem fixed_key_is_key_name_witness :
    sendMessage sampleSendDeps (sampleProducer FixedKey "user1") sampleMsg =
        SendOutcome.published { Key := "user1", Topic := "logs", Value := "\x7b\"encoded\":true\x7d" } ∧
    sendMessage sampleSendDeps (sampleProducer FixedKey "user1") sampleMsgNumericSubject =
        SendOutcome.published { Key := "user1", Topic := "logs", Value := "\x7b\"encoded\":true\x7d" } :=
  ⟨(fixed_key_is_key_name sampleSendDeps (sampleProducer FixedKey "user1") sampleMsg rfl).2
      _ _ _ _ rfl rfl rfl rfl,
    (fixed_key_is_key_name sampleSendDeps (sampleProducer FixedKey "user1")
      sampleMsgNumericSubject rfl).2 _ _ _ _ rfl rfl rfl rfl⟩

/-! ## Sink levels in `newZapLogger` -/

/-- Every core built by `newZapLogger` has the level of the one `LogLevel` field. -/
theorem cores_all_level (d : ZapDeps) (config : Configuration) :
    (newZapLogger d config).1.cores.all
      (fun core => decide (core.level = getZapLevel config.LogLevel)) = true := by
  unfold newZapLogger
  cases hk : config.EnableKafka <;> cases hc : config.EnableConsole <;>
    cases hf : config.EnableFile <;> cases hce : config.EnableCloudEvents <;>
    simp [zapLogger.WithFields]

theorem core_level_eq (d : ZapDeps) (config : Configuration) (core : Core)
    (h : core ∈ (newZapLogger d config).1.cores) : core.level = getZapLevel config.LogLevel := by
  have hall := cores_all_level d config
  rw [List.all_eq_true] at hall
  exact of_decide_eq_true (hall core h)

/-- The level filter is all or nothing: the cores that take an entry at level `lvl` are all the
cores when the shared level admits it, and none otherwise. -/
theorem checked_eq (d : ZapDeps) (config : Configuration) (lvl : Level) :
    (newZapLogger d config).1.checked lvl =
      if getZapLevel config.LogLevel ≤ lvl then (newZapLogger d config).1.cores else [] := by
  have hall := core_level_eq d config
  unfold zapLogger.checked
  split_ifs with hl
  · rw [List.filter_eq_self]
    intro core hcore
    simp [Core.Enabled, hall core hcore, hl]
  · rw [List.filter_eq_nil_iff]
    intro core hcore
    simp [Core.Enabled, hall core hcore, hl]

/-- Cores that all have an encoder all write, in order, and the call returns. -/
theorem writeCores_of_encoders (cs : List Core) (written : List WriteSyncer)
    (h : ∀ c ∈ cs, c.enc ≠ none) :
    writeCores cs written = LogOutcome.done (written ++ cs.map (fun c => c.ws)) := by
  induction cs generalizing written with
  | nil => simp [writeCores]
  | cons c cs ih =>
    have hc : c.enc ≠ none := h c (List.mem_cons_self c cs)
    have hcs : ∀ x ∈ cs, x.enc ≠ none := fun x hx => h x (List.mem_cons_of_mem c hx)
    cases he : c.enc with
    | none => exact absurd he hc
    | some e =>
      unfold writeCores
      simp only [he]
      rw [ih (written ++ [c.ws]) hcs]
      simp

/-- Whatever the encoders, an entry is only ever written to destinations of the cores it was
handed to. -/
theorem writeCores_written_subset (cs : List Core) (written : List WriteSyncer)
    (ws : WriteSyncer) (h : ws ∈ (writeCores cs written).written) :
    ws ∈ written ∨ ∃ c, c ∈ cs ∧ c.ws = ws := by
  induction cs generalizing written with
  | nil =>
    left
    simpa [writeCores, LogOutcome.written] using h
  | cons c cs ih =>
    unfold writeCores at h
    cases he : c.enc with
    | none =>
      left
      simpa [he, LogOutcome.written] using h
    | some e =>
      simp only [he] at h
      rcases ih (written ++ [c.ws]) h with h1 | ⟨x, hx, hxw⟩
      · rw [List.mem_append, List.mem_singleton] at h1
        rcases h1 with h1 | h1
        · exact Or.inl h1
        · exact Or.inr ⟨c, List.mem_cons_self c cs, h1.symm⟩
      · exact Or.inr ⟨x, List.mem_cons_of_mem c hx, hxw⟩

/-- The cores of a logger with console and file sinks only, both with declared formats. -/
theorem cores_console_and_file (d : ZapDeps) (config : Configuration)
    (h : ConsoleAndFileOnly config) :
    ∃ e1 e2 : Encoder,
      (newZapLogger d config).1.cores =
        [{ enc := some e1, ws := WriteSyncer.stdout, level := getZapLevel config.LogLevel },
         { enc := some e2, ws := WriteSyncer.lumberjack config.FileLocation 100 true 28,
           level := getZapLevel config.LogLevel }] := by
  obtain ⟨hk, hc, hf, hcf, hff⟩ := h
  have enc_some : ∀ f : FormatType, DeclaredFormat f → ∃ e, getEncoder f = some e := by
    intro f hfmt
    rcases hfmt with rfl | rfl | rfl
    · exact ⟨Encoder.json, rfl⟩
    · exact ⟨Encoder.console, rfl⟩
    · exact ⟨Encoder.cloudEventsJSON, rfl⟩
  obtain ⟨e1, h1⟩ := enc_some _ hcf
  obtain ⟨e2, h2⟩ := enc_some _ hff
  refine ⟨e1, e2, ?_⟩
  unfold newZapLogger
  cases hce : config.EnableCloudEvents <;> simp [hk, hc, hf, h1, h2, zapLogger.WithFields]

/-- A log call on a logger with console and file sinks only, both with declared formats:
both destinations are written when the shared level admits the entry, none otherwise. -/
theorem log_console_and_file (d : ZapDeps) (config : Configuration) (lvl : Level)
    (h : ConsoleAndFileOnly config) :
    (newZapLogger d config).1.log lvl =
      if getZapLevel config.LogLevel ≤ lvl then
        LogOutcome.done
          [WriteSyncer.stdout, WriteSyncer.lumberjack config.FileLocation 100 true 28]
      else LogOutcome.done [] := by
  obtain ⟨e1, e2, hcores⟩ := cores_console_and_file d config h
  unfold zapLogger.log
  rw [checked_eq, hcores]
  split_ifs with hl
  · rfl
  · rfl

/-- With a file format that `getEncoder` has no case for, a log call admitted by the level
writes the console and then panics in the file core. -/
theorem undeclared_file_format_panics :
    (newZapLogger sampleZapDeps sampleZapCfgBadFileFormat).1.log WarnLevel
      = LogOutcome.panic [WriteSyncer.stdout] := by
  decide

/-- C10, as stated, fails.  No configuration makes `newZapLogger` build two sinks whose level
filters disagree on a log call - every sink has the same minimum level, so none can drop what
another delivers - and no configuration with console and file sinks (broker sink disabled,
both formats declared) makes a log call reach one of the two destinations and not the
other. -/
theorem no_split_between_console_and_file :
    (¬ ∃ (d : ZapDeps) (config : Configuration) (lvl : Level) (a b : Core),
      a ∈ (newZapLogger d config).1.cores ∧ b ∈ (newZapLogger d config).1.cores ∧
      a.Enabled lvl = true ∧ b.Enabled lvl = false) ∧
    (¬ ∃ (d : ZapDeps) (config : Configuration) (lvl : Level),
      ConsoleAndFileOnly config ∧
      (newZapLogger d config).1.reachesConsole lvl ≠
        (newZapLogger d config).1.reachesFile lvl) := by
  constructor
  · rintro ⟨d, config, lvl, a, b, ha, hb, hae, hbe⟩
    unfold Core.Enabled at hae hbe
    rw [core_level_eq d config a ha] at hae
    rw [core_level_eq d config b hb, hae] at hbe
    exact Bool.noConfusion hbe
  · rintro ⟨d, config, lvl, h, hne⟩
    apply hne
    unfold zapLogger.reachesConsole zapLogger.reachesFile zapLogger.delivered
    rw [log_console_and_file d config lvl h]
    split_ifs <;> rfl

/-- C10, amended.  All sinks share the one configured minimum level: every core `newZapLogger`
builds has level `getZapLevel config.LogLevel`, so the level filter hands a log call to every
core or to none.  For a configuration with console and file sinks (broker sink disabled, both
formats declared) a log call therefore is written to the console exactly when it is written to
the file, namely when its level is at least that shared level. -/
theorem sinks_share_one_level (d : ZapDeps) (config : Configuration) (lvl : Level)
    (h : ConsoleAndFileOnly config) :
    (newZapLogger d config).1.cores.all
        (fun core => decide (core.level = getZapLevel config.LogLevel)) = true ∧
    ((newZapLogger d config).1.checked lvl =
      if getZapLevel config.LogLevel ≤ lvl then (newZapLogger d config).1.cores else []) ∧
    ((newZapLogger d config).1.log lvl =
      if getZapLevel config.LogLevel ≤ lvl then
        LogOutcome.done
          [WriteSyncer.stdout, WriteSyncer.lumberjack config.FileLocation 100 true 28]
      else LogOutcome.done []) ∧
    (newZapLogger d config).1.reachesConsole lvl =
      decide (getZapLevel config.LogLevel ≤ lvl) ∧
    (newZapLogger d config).1.reachesFile lvl =
      decide (getZapLevel config.LogLevel ≤ lvl) := by
  have hlog := log_console_and_file d config lvl h
  refine ⟨cores_all_level d config, checked_eq d config lvl, hlog, ?_, ?_⟩
  · unfold zapLogger.reachesConsole zapLogger.delivered
    rw [hlog]
    split_ifs with hl <;> simp [hl, LogOutcome.written, WriteSyncer.isConsole]
  · unfold zapLogger.reachesFile zapLogger.delivered
    rw [hlog]
    split_ifs with hl <;> simp [hl, LogOutcome.written, WriteSyncer.isFile]

/-- C10 amended, at a concrete input: with `LogLevel` "info" and the console and file sinks
enabled, a warn record reaches console and file alike and a debug record reaches neither; with
`LogLevel` "error" a warn record does not reach the console. -/
theorem sinks_share_one_level_witness :
    ConsoleAndFileOnly (sampleZapCfg Info) ∧
    (newZapLogger sampleZapDeps (sampleZapCfg Info)).1.reachesConsole WarnLevel = true ∧
    (newZapLogger sampleZapDeps (sampleZapCfg Info)).1.reachesFile WarnLevel = true ∧
    (newZapLogger sampleZapDeps (sampleZapCfg Info)).1.reachesConsole DebugLevel = false ∧
    (newZapLogger sampleZapDeps (sampleZapCfg Info)).1.reachesFile DebugLevel = false ∧
    (newZapLogger sampleZapDeps (sampleZapCfg Error)).1.reachesConsole WarnLevel = false :=
  ⟨by decide,
    (sinks_share_one_level sampleZapDeps (sampleZapCfg Info) WarnLevel
      (by decide)).2.2.2.1.trans (by decide),
    (sinks_share_one_level sampleZapDeps (sampleZapCfg Info) WarnLevel
      (by decide)).2.2.2.2.trans (by decide),
    (sinks_share_one_level sampleZapDeps (sampleZapCfg Info) DebugLevel
      (by decide)).2.2.2.1.trans (by decide),
    (sinks_share_one_level sampleZapDeps (sampleZapCfg Info) DebugLevel
      (by decide)).2.2.2.2.trans (by decide),
    (sinks_share_one_level sampleZapDeps (sampleZapCfg Error) WarnLevel
      (by decide)).2.2.2.1.trans (by decide)⟩

/-! ## Which sinks `newZapLogger` builds -/

/-- The cores `newZapLogger` builds are, in order, one per enabled sink. -/
theorem cores_kinds_eq (d : ZapDeps) (config : Configuration) :
    (newZapLogger d config).1.cores.map (fun c => c.ws.kind) = enabledSinks config := by
  unfold newZapLogger enabledSinks
  cases hk : config.EnableKafka <;> cases hc : config.EnableConsole <;>
    cases hf : config.EnableFile <;> cases hce : config.EnableCloudEvents <;>
    simp [zapLogger.WithFields, WriteSyncer.kind]

/-- With the broker sink disabled the cores depend neither on the producer constructor nor on
the producer settings. -/
theorem cores_without_kafka (d d2 : ZapDeps) (config : Configuration)
    (p : ProducerConfiguration) (hk : config.EnableKafka = false) :
    (newZapLogger d2 { config with KafkaProducerCfg := p }).1.cores
      = (newZapLogger d config).1.cores := by
  unfold newZapLogger
  cases hc : config.EnableConsole <;> cases hf : config.EnableFile <;>
    cases hce : config.EnableCloudEvents <;>
    simp [hk, zapLogger.WithFields]

/-- C11. For every configuration with `EnableKafka` false, whatever the producer and
key-strategy settings and whatever the producer constructor would do: the cores built by
`newZapLogger` are exactly one per enabled sink among Kafka, console and file, none of them is
a broker sink, the cores are the same for every producer constructor and every producer
configuration (no producer enters the logger), and no log call at any level is written to a
broker sink. -/
theorem kafka_disabled_no_broker_sink (d : ZapDeps) (config : Configuration) (lvl : Level)
    (hk : config.EnableKafka = false) :
    (newZapLogger d config).1.cores.map (fun c => c.ws.kind) = enabledSinks config ∧
    SinkKind.kafka ∉ enabledSinks config ∧
    (∀ (d2 : ZapDeps) (p : ProducerConfiguration),
      (newZapLogger d2 { config with KafkaProducerCfg := p }).1.cores
        = (newZapLogger d config).1.cores) ∧
    SinkKind.kafka ∉ (newZapLogger d config).1.deliveredKinds lvl := by
  have hnot : SinkKind.kafka ∉ enabledSinks config := by
    unfold enabledSinks
    cases hc : config.EnableConsole <;> cases hf : config.EnableFile <;> simp [hk]
  refine ⟨cores_kinds_eq d config, hnot, fun d2 p => cores_without_kafka d d2 config p hk, ?_⟩
  intro hmem
  apply hnot
  rw [← cores_kinds_eq d config]
  unfold zapLogger.deliveredKinds zapLogger.delivered zapLogger.log zapLogger.checked at hmem
  simp only [List.mem_map] at hmem ⊢
  obtain ⟨ws, hws, hkind⟩ := hmem
  rcases writeCores_written_subset _ [] ws hws with hnil | ⟨core, hcore, hcw⟩
  · exact absurd hnil (List.not_mem_nil ws)
  · exact ⟨core, (List.mem_filter.mp hcore).1, by rw [hcw, hkind]⟩

/-- C11 at a concrete input: broker sink disabled, extracted-key producer settings, console
and file enabled. -/
theorem kafka_disabled_no_broker_sink_witness :
    (sampleZapCfgNoKafka (sampleProducerCfg ExtractedKey "subject")).EnableKafka = false ∧
    (newZapLogger sampleZapDeps
        (sampleZapCfgNoKafka (sampleProducerCfg ExtractedKey "subject"))).1.cores.map
      (fun c => c.ws.kind) = [SinkKind.console, SinkKind.file] ∧
    SinkKind.kafka ∉ (newZapLogger sampleZapDeps
        (sampleZapCfgNoKafka (sampleProducerCfg ExtractedKey "subject"))).1.deliveredKinds
      ErrorLevel :=
  ⟨rfl,
    (kafka_disabled_no_broker_sink sampleZapDeps
      (sampleZapCfgNoKafka (sampleProducerCfg ExtractedKey "subject")) ErrorLevel rfl).1.trans
      (by decide),
    (kafka_disabled_no_broker_sink sampleZapDeps
      (sampleZapCfgNoKafka (sampleProducerCfg ExtractedKey "subject")) ErrorLevel rfl).2.2.2⟩

/-! ## Enrichment failure in `sendMessage` -/

/-- C14, as stated, fails: with a fixed key and an enrichment step that fails, `sendMessage`
returns the enrichment error and publishes nothing - no un-enriched record is handed to the
producer. -/
theorem enrichment_failure_drops_record :
    sendMessage sampleSendDepsNoID (sampleProducer FixedKey "user1") sampleMsg
      = SendOutcome.error "cloudevents id function failed" ∧
    ¬ ∃ m, sendMessage sampleSendDepsNoID (sampleProducer FixedKey "user1") sampleMsg
      = SendOutcome.published m := by
  have h : sendMessage sampleSendDepsNoID (sampleProducer FixedKey "user1") sampleMsg
      = SendOutcome.error "cloudevents id function failed" := rfl
  refine ⟨h, ?_⟩
  rintro ⟨m, hm⟩
  rw [h] at hm
  exact SendOutcome.noConfusion hm

/-- C14, amended.  For every message that decodes, for which the key is derived, and for
which the enrichment step `ceAddFields` then fails, `sendMessage` returns that failure as its
per-call error and publishes nothing: the record is dropped for the broker sink. -/
theorem enrichment_failure_is_returned (d : SendDeps) (kp : KafkaProducer) (msg : String)
    (msgMap : JMap) (key e : String)
    (hparse : d.jsonUnmarshal msg = .ok msgMap)
    (hkey : sendMessageKey d kp msgMap = some key)
    (hce : d.ceAddFields kp msgMap = .error e) :
    sendMessage d kp msg = SendOutcome.error e ∧
    ∀ m, sendMessage d kp msg ≠ SendOutcome.published m := by
  have h : sendMessage d kp msg = SendOutcome.error e := by
    unfold sendMessage
    rw [hparse]
    simp only [hkey, hce]
  refine ⟨h, fun m hm => ?_⟩
  rw [h] at hm
  exact SendOutcome.noConfusion hm

/-- C14 amended, at a concrete input: level key, enrichment fails. -/
theorem enrichment_failure_is_returned_witness :
    sendMessage sampleSendDepsNoID (sampleProducer LevelKey "") sampleMsg
      = SendOutcome.error "cloudevents id function failed" :=
  (enrichment_failure_is_returned sampleSendDepsNoID (sampleProducer LevelKey "") sampleMsg
    [("level", JValue.str "info"), ("msg", JValue.str "started")] "info"
    "cloudevents id function failed" rfl rfl rfl).1

/-! ## The level key and the default branch -/

/-- C15, as stated, fails: the key-strategy value 7 is not `LevelKey`, yet `sendMessage` takes
the default branch and publishes with the level string as the key. -/
theorem undeclared_strategy_selects_level_key :
    (7 : kafkaKeyType) ≠ LevelKey ∧
    (-128 : Int) ≤ (7 : kafkaKeyType) ∧ (7 : kafkaKeyType) ≤ 127 ∧
    sendMessage sampleSendDeps (sampleProducer 7 "user1") sampleMsg =
      SendOutcome.published
        { Key := "info", Topic := "logs", Value := "\x7b\"encoded\":true\x7d" } := by
  refine ⟨by decide, by decide, by decide, rfl⟩

/-- C15, amended.  For every message that decodes to an object whose level field is a
string: a producer configured with `LevelKey` - and likewise one configured with any value of
the key type that is not `FixedKey`, `ExtractedKey`, `TimeSecondKey` or `TimeNanoSecondKey` -
uses exactly that level string as the key (the key is a function of the record, so repeated
calls agree), and publishes with it whenever enrichment and encoding succeed and a producer is
attached; each of the four other declared strategies uses its own rule. -/
theorem level_key_is_default (d : SendDeps) (kp : KafkaProducer) (msg : String)
    (msgMap : JMap) (level : String)
    (hparse : d.jsonUnmarshal msg = .ok msgMap)
    (hlevel : msgMap.index d.ceLevelKey = some (JValue.str level)) :
    LevelKey ∉ ownKeyStrategies ∧
    (kp.config.Key ∉ ownKeyStrategies → sendMessageKey d kp msgMap = some level) ∧
    (kp.config.Key ∉ ownKeyStrategies →
      ∀ m, sendMessage d kp msg = SendOutcome.published m → m.Key = level) ∧
    (kp.config.Key ∉ ownKeyStrategies →
      ∀ enriched newmsg p, d.ceAddFields kp msgMap = .ok enriched →
        d.jsonMarshal enriched = .ok newmsg → kp.producer = some p →
        sendMessage d kp msg = SendOutcome.published
          { Key := level, Topic := kp.config.Topic, Value := newmsg }) ∧
    (kp.config.Key = FixedKey → sendMessageKey d kp msgMap = some kp.config.KeyName) ∧
    (kp.config.Key = ExtractedKey →
      sendMessageKey d kp msgMap = assertString (msgMap.index kp.config.KeyName)) ∧
    (kp.config.Key = TimeSecondKey → sendMessageKey d kp msgMap = some (Itoa d.unixNow)) ∧
    (kp.config.Key = TimeNanoSecondKey →
      sendMessageKey d kp msgMap = some (Itoa d.unixNanoNow)) := by
  have hdef : kp.config.Key ∉ ownKeyStrategies → sendMessageKey d kp msgMap = some level := by
    intro h
    simp only [ownKeyStrategies, List.mem_cons, List.mem_singleton, List.not_mem_nil,
      or_false, not_or] at h
    obtain ⟨h1, h2, h3, h4⟩ := h
    unfold sendMessageKey
    rw [if_neg h1, if_neg h2, if_neg h3, if_neg h4, hlevel]
    rfl
  refine ⟨by decide, hdef, ?_, ?_, ?_, ?_, ?_, ?_⟩
  · intro h m hm
    unfold sendMessage at hm
    rw [hparse] at hm
    simp only [hdef h] at hm
    split at hm
    · exact SendOutcome.noConfusion hm
    · split at hm
      · exact SendOutcome.noConfusion hm
      · split at hm
        · exact SendOutcome.noConfusion hm
        · injection hm with hm
          rw [← hm]
  · intro h enriched newmsg p h2 h3 h4
    unfold sendMessage
    rw [hparse]
    simp only [hdef h, h2, h3, h4]
  · intro h
    unfold sendMessageKey
    rw [if_pos h]
  · intro h
    unfold sendMessageKey
    rw [h, if_neg (by decide), if_pos rfl]
  · intro h
    unfold sendMessageKey
    rw [h, if_neg (by decide), if_neg (by decide), if_pos rfl]
  · intro h
    unfold sendMessageKey
    rw [h, if_neg (by decide), if_neg (by decide), if_neg (by decide), if_pos rfl]

/-- C15 amended, at a concrete input: `LevelKey` and a record at level "info". -/
theorem level_key_is_default_witness :
    sendMessage sampleSendDeps (sampleProducer LevelKey "") sampleMsg =
      SendOutcome.published
        { Key := "info", Topic := "logs", Value := "\x7b\"encoded\":true\x7d" } :=
  (level_key_is_default sampleSendDeps (sampleProducer LevelKey "") sampleMsg
    [("level", JValue.str "info"), ("msg", JValue.str "started")] "info" rfl rfl).2.2.2.1
    (by decide) _ _ _ rfl rfl rfl

/-! ## Level names -/

/-- C16. The function `getZapLevel` maps each of the five level names to the backend level of
the same name, is strictly order-preserving for the order debug < info < warn < error < fatal
on the names, and maps every other string, the empty string included, to the info level. -/
theorem getZapLevel_order_preserving :
    (getZapLevel Debug = DebugLevel ∧ getZapLevel Info = InfoLevel ∧
      getZapLevel Warn = WarnLevel ∧ getZapLevel Error = ErrorLevel ∧
      getZapLevel Fatal = FatalLevel) ∧
    (DebugLevel < InfoLevel ∧ InfoLevel < WarnLevel ∧ WarnLevel < ErrorLevel ∧
      ErrorLevel < FatalLevel) ∧
    (∀ a b : String, a ∈ levelNames → b ∈ levelNames →
      levelNames.indexOf a < levelNames.indexOf b → getZapLevel a < getZapLevel b) ∧
    (∀ s : String, s ∉ levelNames → getZapLevel s = InfoLevel) ∧
    getZapLevel "" = InfoLevel := by
  refine ⟨by decide, by decide, ?_, ?_, by decide⟩
  · intro a b ha hb
    simp only [levelNames, List.mem_cons, List.mem_singleton, List.not_mem_nil,
      or_false] at ha hb
    rcases ha with rfl | rfl | rfl | rfl | rfl <;>
      rcases hb with rfl | rfl | rfl | rfl | rfl <;> decide
  · intro s hs
    simp only [levelNames, List.mem_cons, List.mem_singleton, List.not_mem_nil,
      or_false, not_or] at hs
    obtain ⟨h1, h2, h3, h4, h5⟩ := hs
    unfold getZapLevel
    rw [if_neg h2, if_neg h3, if_neg h1, if_neg h4, if_neg h5]

end GoLogger
